import Mathlib

/-!
Verification development for the gcode_interpreter repository.

Shallow embedding of the interpreter core (src/core, src/handlers, src/utils)
in Lean 4.  Python floats are modelled as exact rationals (ℚ); the
transcendental float functions (math.sqrt, math.atan2, math.cos, math.sin)
are abstracted into a MathOracle record that is threaded through the
geometry code, so every definition stays computable and claims that do not
depend on transcendental values can be settled by evaluation.
-/

namespace GCI

/-- Abstraction of the transcendental float functions used by the source
(math.sqrt, math.atan2, math.cos, math.sin).  The embedding threads one of
these records wherever the Python code calls into the math module. -/
structure MathOracle where
  sqrt : ℚ → ℚ
  atan2 : ℚ → ℚ → ℚ
  cos : ℚ → ℚ
  sin : ℚ → ℚ

/-- A trivial oracle used to close counterexamples whose evaluation never
depends on a transcendental value. -/
def zeroOracle : MathOracle :=
  { sqrt := fun _ => 0, atan2 := fun _ _ => 0, cos := fun _ => 0, sin := fun _ => 0 }

/-- The exact rational value of the IEEE-754 double math.pi. -/
def pyPi : ℚ := 884279719003555 / 281474976710656

/-- TINY = 1e-12 from src/utils/geometry.py. -/
def TINY : ℚ := 1 / 1000000000000

/-- Python int() truncation toward zero on a rational. -/
def pyInt (q : ℚ) : Int := q.num.tdiv (q.den : Int)

/- ===================== src/utils/errors.py ===================== -/

/-- ErrorType from src/utils/errors.py.  SYN stands for the source's
syntactic error kind; the other names match the source. -/
inductive ErrorType where
  | SYN
  | SEMANTIC
  | RUNTIME
  | WARNING
deriving DecidableEq, Repr

/-- ErrorSeverity from src/utils/errors.py. -/
inductive ErrorSeverity where
  | WARNING
  | ERROR
  | FATAL
deriving DecidableEq, Repr

/-- GCodeError from src/utils/errors.py.  Messages keep the fixed text of
the source f-strings; interpolated values are elided. -/
structure GCodeError where
  line_number : Nat
  char_start : Nat
  char_end : Nat
  message : String
  error_type : ErrorType
  severity : ErrorSeverity
deriving DecidableEq, Repr

/-- ErrorCollector.add_error: appends a GCodeError (default severity ERROR
is written explicitly at call sites). -/
def add_error (errs : List GCodeError) (line cs ce : Nat) (msg : String)
    (et : ErrorType) (sev : ErrorSeverity := ErrorSeverity.ERROR) : List GCodeError :=
  errs ++ [⟨line, cs, ce, msg, et, sev⟩]

/-- ErrorCollector.has_fatal_errors. -/
def has_fatal_errors (errs : List GCodeError) : Bool :=
  errs.any (fun e => e.severity = ErrorSeverity.FATAL)

/-- ErrorCollector.has_errors (errors or fatals, warnings excluded). -/
def has_errors (errs : List GCodeError) : Bool :=
  errs.any (fun e => e.severity = ErrorSeverity.ERROR ∨ e.severity = ErrorSeverity.FATAL)

/- ===================== src/core/machine_state.py ===================== -/

/-- The nine axis letters x y z a b c u v w. -/
inductive Axis where
  | x | y | z | a | b | c | u | v | w
deriving DecidableEq, Repr

/-- The source's axis iteration string 'xyzabcuvw'. -/
def axisList : List Axis :=
  [Axis.x, Axis.y, Axis.z, Axis.a, Axis.b, Axis.c, Axis.u, Axis.v, Axis.w]

/-- CoordinateSystem from src/core/machine_state.py: per-axis offsets,
all defaulting to 0. -/
structure CoordinateSystem where
  x : ℚ := 0
  y : ℚ := 0
  z : ℚ := 0
  a : ℚ := 0
  b : ℚ := 0
  c : ℚ := 0
  u : ℚ := 0
  v : ℚ := 0
  w : ℚ := 0
deriving DecidableEq, Repr

/-- CoordinateSystem.get_offset (getattr by axis letter). -/
def CoordinateSystem.get_offset (cs : CoordinateSystem) : Axis → ℚ
  | Axis.x => cs.x | Axis.y => cs.y | Axis.z => cs.z
  | Axis.a => cs.a | Axis.b => cs.b | Axis.c => cs.c
  | Axis.u => cs.u | Axis.v => cs.v | Axis.w => cs.w

/-- CoordinateSystem.set_offset (setattr by axis letter). -/
def CoordinateSystem.set_offset (cs : CoordinateSystem) (ax : Axis) (v : ℚ) :
    CoordinateSystem :=
  match ax with
  | Axis.x => { cs with x := v } | Axis.y => { cs with y := v } | Axis.z => { cs with z := v }
  | Axis.a => { cs with a := v } | Axis.b => { cs with b := v } | Axis.c => { cs with c := v }
  | Axis.u => { cs with u := v } | Axis.v => { cs with v := v } | Axis.w => { cs with w := v }

/-- Position from src/core/machine_state.py: a point in 9-axis space. -/
structure Position where
  x : ℚ := 0
  y : ℚ := 0
  z : ℚ := 0
  a : ℚ := 0
  b : ℚ := 0
  c : ℚ := 0
  u : ℚ := 0
  v : ℚ := 0
  w : ℚ := 0
deriving DecidableEq, Repr

/-- Position.get_axis. -/
def Position.get_axis (p : Position) : Axis → ℚ
  | Axis.x => p.x | Axis.y => p.y | Axis.z => p.z
  | Axis.a => p.a | Axis.b => p.b | Axis.c => p.c
  | Axis.u => p.u | Axis.v => p.v | Axis.w => p.w

/-- Position.set_axis. -/
def Position.set_axis (p : Position) (ax : Axis) (v : ℚ) : Position :=
  match ax with
  | Axis.x => { p with x := v } | Axis.y => { p with y := v } | Axis.z => { p with z := v }
  | Axis.a => { p with a := v } | Axis.b => { p with b := v } | Axis.c => { p with c := v }
  | Axis.u => { p with u := v } | Axis.v => { p with v := v } | Axis.w => { p with w := v }

/-- Position.to_list: [x, y, z]. -/
def Position.to_list (p : Position) : List ℚ := [p.x, p.y, p.z]

/-- The modal group map of MachineState (a Python dict keyed by the group
name strings); one field per group key. -/
structure ModalGroups where
  motion : ℚ := 1
  plane : ℚ := 17
  distance : ℚ := 90
  arc_distance : ℚ := 911/10
  feed_rate_mode : ℚ := 94
  units : ℚ := 21
  cutter_comp : ℚ := 40
  tool_length : ℚ := 49
  coordinate_system : ℚ := 54
  path_control : ℚ := 64
  return_mode : ℚ := 98
deriving DecidableEq, Repr

/-- The modal group name keys of the MachineState.modal_groups dict. -/
inductive ModalKey where
  | motion | plane | distance | arc_distance | feed_rate_mode | units
  | cutter_comp | tool_length | coordinate_system | path_control | return_mode
deriving DecidableEq, Repr

/-- MachineState from src/core/machine_state.py.  The variables and
numbered_parameters dicts are carried as association lists. -/
structure MachineState where
  current_position : Position := {}
  previous_position : Position := {}
  modal_groups : ModalGroups := {}
  coordinate_systems : List (ℚ × CoordinateSystem) :=
    [(54, {}), (55, {}), (56, {}), (57, {}), (58, {}), (59, {}),
     (591/10, {}), (592/10, {}), (593/10, {})]
  g92_offset : CoordinateSystem := {}
  feed_rate : ℚ := 0
  spindle_speed : ℚ := 0
  current_tool : Int := 0
  named_variables : List (String × ℚ) := []  -- the source field is called variables
  numbered_parameters : List (Int × ℚ) := []

/-- MachineState.update_modal_group (the group key always exists). -/
def MachineState.update_modal_group (s : MachineState) (k : ModalKey) (code : ℚ) :
    MachineState :=
  let m := s.modal_groups
  let m' :=
    match k with
    | ModalKey.motion => { m with motion := code }
    | ModalKey.plane => { m with plane := code }
    | ModalKey.distance => { m with distance := code }
    | ModalKey.arc_distance => { m with arc_distance := code }
    | ModalKey.feed_rate_mode => { m with feed_rate_mode := code }
    | ModalKey.units => { m with units := code }
    | ModalKey.cutter_comp => { m with cutter_comp := code }
    | ModalKey.tool_length => { m with tool_length := code }
    | ModalKey.coordinate_system => { m with coordinate_system := code }
    | ModalKey.path_control => { m with path_control := code }
    | ModalKey.return_mode => { m with return_mode := code }
  { s with modal_groups := m' }

/-- Association list lookup standing in for Python dict lookup. -/
def alist_get {α β : Type} [DecidableEq α] (l : List (α × β)) (k : α) : Option β :=
  (l.find? (fun p => p.1 = k)).map Prod.snd

/-- Association list update standing in for Python dict item assignment:
updates the existing key in place, otherwise appends. -/
def alist_set {α β : Type} [DecidableEq α] (l : List (α × β)) (k : α) (v : β) :
    List (α × β) :=
  if (l.find? (fun p => p.1 = k)).isSome then
    l.map (fun p => if p.1 = k then (k, v) else p)
  else
    l ++ [(k, v)]

/-- MachineState.get_active_coordinate_system:
coordinate_systems.get(cs_code, coordinate_systems[54]). -/
def MachineState.get_active_coordinate_system (s : MachineState) : CoordinateSystem :=
  let cs_code := s.modal_groups.coordinate_system
  match alist_get s.coordinate_systems cs_code with
  | some cs => cs
  | none => (alist_get s.coordinate_systems 54).getD {}

/-- MachineState.get_current_plane: plane modal code to axis pair,
default (X, Y). -/
def MachineState.get_current_plane (s : MachineState) : Axis × Axis :=
  let code := s.modal_groups.plane
  if code = 17 then (Axis.x, Axis.y)
  else if code = 18 then (Axis.x, Axis.z)
  else if code = 19 then (Axis.y, Axis.z)
  else if code = 171/10 then (Axis.u, Axis.v)
  else if code = 181/10 then (Axis.u, Axis.w)
  else if code = 191/10 then (Axis.v, Axis.w)
  else (Axis.x, Axis.y)

/-- MachineState.calculate_absolute_position: the source loops over the
nine axes and sets, per axis, absolute = relative + active-cs-offset +
g92-offset.  No other term is added on any axis. -/
def MachineState.calculate_absolute_position (s : MachineState)
    (relative_position : Position) : Position :=
  let cs := s.get_active_coordinate_system
  axisList.foldl
    (fun acc ax =>
      acc.set_axis ax
        (relative_position.get_axis ax + cs.get_offset ax + s.g92_offset.get_offset ax))
    {}

/-- Modelled from the spec: the spec's calculate_absolute_position
additionally applies a tool-length offset to the Z axis.  The source
MachineState stores no tool-length offset value (only the modal code 43/49
and an unimplemented G43 handler), so the offset is an explicit argument
here. -/
def calculate_absolute_position_spec (s : MachineState) (tool_length_offset : ℚ)
    (relative_position : Position) : Position :=
  let base := s.calculate_absolute_position relative_position
  { base with z := base.z + tool_length_offset }

/-- MachineState.is_distance_mode_absolute. -/
def MachineState.is_distance_mode_absolute (s : MachineState) : Bool :=
  s.modal_groups.distance = 90

/-- MachineState.is_arc_distance_mode_absolute. -/
def MachineState.is_arc_distance_mode_absolute (s : MachineState) : Bool :=
  s.modal_groups.arc_distance = 901/10

/-- MachineState.update_position: previous := copy of current,
current := new. -/
def MachineState.update_position (s : MachineState) (new_position : Position) :
    MachineState :=
  { s with previous_position := s.current_position, current_position := new_position }

/-- MachineState.set_g92_offset. -/
def MachineState.set_g92_offset (s : MachineState) (ax : Axis) (v : ℚ) : MachineState :=
  { s with g92_offset := s.g92_offset.set_offset ax v }

/- ===================== src/utils/geometry.py ===================== -/

/-- calculate_arc_data_r from src/utils/geometry.py.  move is 20 for G2
(CW) and 30 for G3 (CCW); returns (center_x, center_y, turn).
math.hypot(dx, dy) is sqrt(dx² + dy²).  When radius = 0 and the endpoints
coincide the Python code divides by zero; the ℚ convention 0/0 = 0 stands
in for that unreachable edge. -/
def calculate_arc_data_r (μ : MathOracle) (move : ℚ) (x1 y1 x2 y2 radius : ℚ) :
    ℚ × ℚ × Int :=
  let abs_radius := |radius|
  let half_dist := μ.sqrt ((x2 - x1) ^ 2 + (y2 - y1) ^ 2) / 2
  if half_dist > abs_radius then
    -- Arc is impossible, return a straight line midpoint as fallback
    ((x1 + x2) / 2, (y1 + y2) / 2, if move = 30 then 1 else -1)
  else
    let half_dist := if half_dist / abs_radius > 1 - TINY then abs_radius else half_dist
    let offset := μ.sqrt (abs_radius ^ 2 - half_dist ^ 2)
    let mid_x := (x1 + x2) / 2
    let mid_y := (y1 + y2) / 2
    let angle := μ.atan2 (y2 - y1) (x2 - x1)
    let center_angle :=
      if (move = 20 ∧ radius > 0) ∨ (move = 30 ∧ radius < 0) then
        angle - pyPi / 2
      else
        angle + pyPi / 2
    (mid_x + offset * μ.cos center_angle, mid_y + offset * μ.sin center_angle,
      if move = 30 then 1 else -1)

/-- The chord midpoint of the two arc endpoints. -/
def chordMidpoint (x1 y1 x2 y2 : ℚ) : ℚ × ℚ := ((x1 + x2) / 2, (y1 + y2) / 2)

/-- calculate_arc_data_ijk from src/utils/geometry.py. -/
def calculate_arc_data_ijk (move : ℚ) (x1 y1 _x2 _y2 i j k plane : ℚ) :
    ℚ × ℚ × Int :=
  let (center_x, center_y) :=
    if plane = 170 then (x1 + i, y1 + j)
    else if plane = 180 then (x1 + i, y1 + k)
    else if plane = 190 then (x1 + j, y1 + k)
    else (x1 + i, y1 + j)
  (center_x, center_y, if move = 30 then 1 else -1)

/- ===================== src/core/geometry.py ===================== -/

/-- MoveType from src/core/geometry.py. -/
inductive MoveType where
  | RAPID
  | FEED
  | ARC_CW
  | ARC_CCW
deriving DecidableEq, Repr

/-- Point3D from src/core/geometry.py. -/
structure Point3D where
  x : ℚ
  y : ℚ
  z : ℚ
deriving DecidableEq, Repr

/-- Point3D.distance_to (math.sqrt through the oracle). -/
def Point3D.distance_to (μ : MathOracle) (p q : Point3D) : ℚ :=
  let dx := p.x - q.x
  let dy := p.y - q.y
  let dz := p.z - q.z
  μ.sqrt (dx * dx + dy * dy + dz * dz)

/-- GeometrySegment from src/core/geometry.py. -/
structure GeometrySegment where
  segment_id : Nat
  line_number : Nat
  move_type : MoveType
  start_point : Point3D
  end_point : Point3D
  center_point : Option Point3D := none
  radius : Option ℚ := none
  start_angle : Option ℚ := none
  end_angle : Option ℚ := none
  plane : Option String := none
  feed_rate : Option ℚ := none
  length : Option ℚ := none
deriving DecidableEq, Repr

/-- GeometrySegment.calculate_length: stores the computed length on the
segment and returns it (the source's trailing `self.length or 0.0` returns
the same rational value). -/
def GeometrySegment.calculate_length (μ : MathOracle) (seg : GeometrySegment) :
    GeometrySegment × ℚ :=
  let len :=
    if seg.move_type = MoveType.RAPID ∨ seg.move_type = MoveType.FEED then
      seg.start_point.distance_to μ seg.end_point
    else
      match seg.radius, seg.start_angle, seg.end_angle with
      | some r, some sa, some ea =>
        let angle_diff := |ea - sa|
        let angle_diff := if angle_diff > pyPi then 2 * pyPi - angle_diff else angle_diff
        r * angle_diff
      | _, _, _ =>
        -- Fallback to straight line distance
        seg.start_point.distance_to μ seg.end_point
  ({ seg with length := some len }, len)

/-- GeometrySegment.get_bounding_box.  For linear moves the source returns
the componentwise min/max of the endpoints.  For arc moves the source body
is `return self.get_bounding_box()` — an unconditional recursive call on
the unchanged segment — so the call never returns; the fuel argument makes
that visible: the arc branch consumes fuel without progress and yields
none at every fuel. -/
def GeometrySegment.get_bounding_box :
    GeometrySegment → Nat → Option (Point3D × Point3D)
  | _, 0 => none
  | seg, Nat.succ fuel =>
    if seg.move_type = MoveType.RAPID ∨ seg.move_type = MoveType.FEED then
      some
        (⟨min seg.start_point.x seg.end_point.x,
          min seg.start_point.y seg.end_point.y,
          min seg.start_point.z seg.end_point.z⟩,
         ⟨max seg.start_point.x seg.end_point.x,
          max seg.start_point.y seg.end_point.y,
          max seg.start_point.z seg.end_point.z⟩)
    else
      seg.get_bounding_box fuel

/-- The mutable collections of GeometryManager from src/core/geometry.py. -/
structure GeomState where
  segments : List GeometrySegment := []
  line_to_segments : List (Nat × List Nat) := []
  segment_counter : Nat := 0
  total_length : ℚ := 0
  rapid_length : ℚ := 0
  feed_length : ℚ := 0

/-- GeometryManager._add_line_mapping. -/
def GeomState.add_line_mapping (g : GeomState) (line_number segment_id : Nat) :
    GeomState :=
  let cur := (alist_get g.line_to_segments line_number).getD []
  { g with line_to_segments := alist_set g.line_to_segments line_number (cur ++ [segment_id]) }

/-- Reads coordinate index i of a Python [x, y, z] list argument. -/
def coordAt (l : List ℚ) (i : Nat) : ℚ := l.getD i 0

/-- GeometryManager.add_linear_move. -/
def GeomState.add_linear_move (μ : MathOracle) (g : GeomState)
    (start «end» : List ℚ) (line_number : Nat) (move_type : MoveType)
    (feed_rate : Option ℚ := none) : GeomState × Nat :=
  let start_point : Point3D := ⟨coordAt start 0, coordAt start 1, coordAt start 2⟩
  let end_point : Point3D := ⟨coordAt «end» 0, coordAt «end» 1, coordAt «end» 2⟩
  let segment : GeometrySegment :=
    { segment_id := g.segment_counter, line_number := line_number,
      move_type := move_type, start_point := start_point, end_point := end_point,
      feed_rate := feed_rate }
  let (segment, length) := segment.calculate_length μ
  let g := { g with total_length := g.total_length + length }
  let g :=
    if move_type = MoveType.RAPID then { g with rapid_length := g.rapid_length + length }
    else if move_type = MoveType.FEED then { g with feed_length := g.feed_length + length }
    else g
  let g := { g with segments := g.segments ++ [segment] }
  let g := g.add_line_mapping line_number g.segment_counter
  ({ g with segment_counter := g.segment_counter + 1 }, segment.segment_id)

/-- GeometryManager._calculate_arc_properties: radius is the average of
the start- and end-point distances to the center; angles are atan2 of the
endpoints, normalized into [0, 2π]. -/
def calculate_arc_properties (μ : MathOracle) (start «end» center : Point3D)
    (plane : String) (_direction : String) : ℚ × ℚ × ℚ :=
  let (x1, y1, x2, y2, cx, cy) :=
    if plane.toUpper = "XY" then (start.x, start.y, «end».x, «end».y, center.x, center.y)
    else if plane.toUpper = "XZ" then (start.x, start.z, «end».x, «end».z, center.x, center.z)
    else if plane.toUpper = "YZ" then (start.y, start.z, «end».y, «end».z, center.y, center.z)
    else (start.x, start.y, «end».x, «end».y, center.x, center.y)
  let r1 := μ.sqrt ((x1 - cx) ^ 2 + (y1 - cy) ^ 2)
  let r2 := μ.sqrt ((x2 - cx) ^ 2 + (y2 - cy) ^ 2)
  let radius := (r1 + r2) / 2
  let start_angle := μ.atan2 (y1 - cy) (x1 - cx)
  let end_angle := μ.atan2 (y2 - cy) (x2 - cx)
  let start_angle := if start_angle < 0 then start_angle + 2 * pyPi else start_angle
  let end_angle := if end_angle < 0 then end_angle + 2 * pyPi else end_angle
  (radius, start_angle, end_angle)

/-- GeometryManager.add_arc_move. -/
def GeomState.add_arc_move (μ : MathOracle) (g : GeomState)
    (start «end» center : List ℚ) (line_number : Nat) (direction : String)
    (plane : String := "XY") (feed_rate : Option ℚ := none) : GeomState × Nat :=
  let start_point : Point3D := ⟨coordAt start 0, coordAt start 1, coordAt start 2⟩
  let end_point : Point3D := ⟨coordAt «end» 0, coordAt «end» 1, coordAt «end» 2⟩
  let center_point : Point3D := ⟨coordAt center 0, coordAt center 1, coordAt center 2⟩
  let move_type := if direction.toUpper = "CW" then MoveType.ARC_CW else MoveType.ARC_CCW
  let (radius, start_angle, end_angle) :=
    calculate_arc_properties μ start_point end_point center_point plane direction
  let segment : GeometrySegment :=
    { segment_id := g.segment_counter, line_number := line_number,
      move_type := move_type, start_point := start_point, end_point := end_point,
      center_point := some center_point, radius := some radius,
      start_angle := some start_angle, end_angle := some end_angle,
      plane := some plane, feed_rate := feed_rate }
  let (segment, length) := segment.calculate_length μ
  let g := { g with total_length := g.total_length + length }
  let g := { g with feed_length := g.feed_length + length }  -- arcs are always feed moves
  let g := { g with segments := g.segments ++ [segment] }
  let g := g.add_line_mapping line_number g.segment_counter
  ({ g with segment_counter := g.segment_counter + 1 }, segment.segment_id)

/-- GeometryManager.clear. -/
def GeomState.clear (_g : GeomState) : GeomState := {}

/- ===================== src/core/lexer.py ===================== -/

/-- TokenType from src/core/lexer.py.  SYN-prefixed names are avoided;
the constructor names follow the source. -/
inductive TokenType where
  | G_COMMAND | M_COMMAND | O_COMMAND
  | X_WORD | Y_WORD | Z_WORD | A_WORD | B_WORD | C_WORD | U_WORD | V_WORD | W_WORD
  | I_WORD | J_WORD | K_WORD | L_WORD | P_WORD | Q_WORD | R_WORD | H_WORD
  | F_WORD | S_WORD | T_WORD | N_WORD
  | NUMBER | VARIABLE | EXPRESSION
  | COMMENT | MSG_COMMENT | DEBUG_COMMENT | PYTHON_COMMENT
  | NEWLINE | EOF
deriving DecidableEq, Repr

/-- Token from src/core/lexer.py. -/
structure Token where
  type : TokenType
  value : String
  line_number : Nat
  char_start : Nat
  char_end : Nat
deriving DecidableEq, Repr

/-- Python str.isspace / strip character class (space, tab, CR, LF,
vertical tab, form feed). -/
def isSpaceChar (c : Char) : Bool :=
  c = ' ' ∨ c = '\t' ∨ c = '\r' ∨ c = '\n' ∨ c = '\x0b' ∨ c = '\x0c'

/-- ASCII decimal digit test (the \d class over this input). -/
def isDigitChar (c : Char) : Bool := '0' ≤ c ∧ c ≤ '9'

/-- ASCII letter test (the [A-Z] class with IGNORECASE). -/
def isAlphaChar (c : Char) : Bool := ('A' ≤ c ∧ c ≤ 'Z') ∨ ('a' ≤ c ∧ c ≤ 'z')

/-- The \w regex class (letters, digits, underscore, over ASCII input). -/
def isWordChar (c : Char) : Bool := isAlphaChar c ∨ isDigitChar c ∨ c = '_'

/-- Python str.strip(): drop leading and trailing whitespace characters. -/
def pyStrip (s : String) : String :=
  ⟨(s.data.dropWhile isSpaceChar).reverse.dropWhile isSpaceChar |>.reverse⟩

/-- Leading digits of a character list: their numeric value, how many
there are, and the rest. -/
def takeDigits : List Char → Nat → Nat → Nat × Nat × List Char
  | [], acc, n => (acc, n, [])
  | c :: cs, acc, n =>
    if isDigitChar c then takeDigits cs (acc * 10 + (c.toNat - '0'.toNat)) (n + 1)
    else (acc, n, c :: cs)

/-- Matches the source's NUMBER_PATTERN
[+-]?(?:\d+\.?\d*|\.\d+)(?:[eE][+-]?\d+)? at the head of a character
list, returning the exact rational value and the number of characters
consumed. -/
def parseFloatQ (l : List Char) : Option (ℚ × Nat) :=
  let (sign, rest, signLen) :=
    match l with
    | '+' :: cs => ((1 : ℚ), cs, 1)
    | '-' :: cs => ((-1 : ℚ), cs, 1)
    | cs => ((1 : ℚ), cs, 0)
  let (d1, n1, rest1) := takeDigits rest 0 0
  let core : Option (ℚ × Nat × List Char) :=
    if n1 > 0 then
      match rest1 with
      | '.' :: cs =>
        let (d2, n2, rest2) := takeDigits cs 0 0
        some (((d1 : ℚ) * 10 ^ n2 + (d2 : ℚ)) / 10 ^ n2, n1 + 1 + n2, rest2)
      | _ => some ((d1 : ℚ), n1, rest1)
    else
      match rest1 with
      | '.' :: cs =>
        let (d2, n2, rest2) := takeDigits cs 0 0
        if n2 > 0 then some ((d2 : ℚ) / 10 ^ n2, 1 + n2, rest2) else none
      | _ => none
  match core with
  | none => none
  | some (v, coreLen, rest2) =>
    let (expPart, expLen) :=
      match rest2 with
      | e :: cs =>
        if e = 'e' ∨ e = 'E' then
          let (esign, cs2, esLen) :=
            match cs with
            | '+' :: cs3 => ((1 : Int), cs3, 1)
            | '-' :: cs3 => ((-1 : Int), cs3, 1)
            | cs3 => ((1 : Int), cs3, 0)
          let (ed, ne, _) := takeDigits cs2 0 0
          if ne > 0 then ((esign * (ed : Int), 1 + esLen + ne)) else ((0, 0))
        else (0, 0)
      | [] => (0, 0)
    some (sign * v * (10 : ℚ) ^ (expPart : Int), signLen + coreLen + expLen)

/-- Consumes repetitions of [+\-*/]\w+ (the tail of the #-variable
alternative of WORD_PATTERN); the fuel is the list length. -/
def matchVarTail : List Char → Nat → Nat
  | _, 0 => 0
  | op :: cs, Nat.succ fuel =>
    if op = '+' ∨ op = '-' ∨ op = '*' ∨ op = '/' then
      let w := (cs.takeWhile isWordChar).length
      if w = 0 then 0
      else (1 + w) + matchVarTail (cs.drop w) fuel
    else 0
  | [], _ => 0

/-- Matches the #\w+(?:[+\-*/]\w+)* alternative of WORD_PATTERN,
returning the number of characters consumed. -/
def matchVarExpr (l : List Char) : Option Nat :=
  match l with
  | '#' :: cs =>
    let w1 := (cs.takeWhile isWordChar).length
    if w1 = 0 then none
    else
      let rest := cs.drop w1
      some (1 + w1 + matchVarTail rest rest.length)
  | _ => none

/-- The comment classification and value trimming of
GCodeLexer._try_parse_comment for a closed parenthetical comment. -/
def classifyParenComment (comment_text : String) : TokenType × String :=
  let comment_upper := pyStrip comment_text.toUpper
  if comment_upper.startsWith "MSG," then
    (TokenType.MSG_COMMENT, pyStrip (comment_text.drop 4))
  else if comment_upper.startsWith "DEBUG," then
    (TokenType.DEBUG_COMMENT, pyStrip (comment_text.drop 6))
  else if comment_upper.startsWith "PY," then
    (TokenType.PYTHON_COMMENT, pyStrip (comment_text.drop 3))
  else
    (TokenType.COMMENT, comment_text)

/-- GCodeLexer._get_token_type_for_letter. -/
def letterTokenType (letter : Char) : Option TokenType :=
  if letter = 'G' then some TokenType.G_COMMAND
  else if letter = 'M' then some TokenType.M_COMMAND
  else if letter = 'O' then some TokenType.O_COMMAND
  else if letter = 'X' then some TokenType.X_WORD
  else if letter = 'Y' then some TokenType.Y_WORD
  else if letter = 'Z' then some TokenType.Z_WORD
  else if letter = 'A' then some TokenType.A_WORD
  else if letter = 'B' then some TokenType.B_WORD
  else if letter = 'C' then some TokenType.C_WORD
  else if letter = 'U' then some TokenType.U_WORD
  else if letter = 'V' then some TokenType.V_WORD
  else if letter = 'W' then some TokenType.W_WORD
  else if letter = 'I' then some TokenType.I_WORD
  else if letter = 'J' then some TokenType.J_WORD
  else if letter = 'K' then some TokenType.K_WORD
  else if letter = 'L' then some TokenType.L_WORD
  else if letter = 'P' then some TokenType.P_WORD
  else if letter = 'Q' then some TokenType.Q_WORD
  else if letter = 'R' then some TokenType.R_WORD
  else if letter = 'H' then some TokenType.H_WORD
  else if letter = 'F' then some TokenType.F_WORD
  else if letter = 'S' then some TokenType.S_WORD
  else if letter = 'T' then some TokenType.T_WORD
  else if letter = 'N' then some TokenType.N_WORD
  else none

/-- One step state for the _tokenize_line scan: remaining characters of
the stripped line, current position in the stripped line. -/
structure LineScan where
  remaining : List Char
  pos : Nat
  tokens : List Token
  errs : List GCodeError

/-- The body of GCodeLexer._tokenize_line: scans the stripped line,
producing tokens and SYN diagnostics.  stripped_count is the number of
leading whitespace characters removed from the original line (used by
_get_original_position), orig_len the original line's length.  The fuel
is the number of remaining characters; every iteration consumes at least
one character, so this is exact. -/
def tokenizeLineLoop (line_number stripped_count orig_len : Nat)
    (stripped : List Char) :
    Nat → LineScan → List Token × List GCodeError
  | 0, st => (st.tokens, st.errs)
  | Nat.succ fuel, st =>
    match st.remaining with
    | [] => (st.tokens, st.errs)
    | c :: rest =>
      let start_pos := stripped_count + st.pos
      if isSpaceChar c then
        tokenizeLineLoop line_number stripped_count orig_len stripped fuel
          { st with remaining := rest, pos := st.pos + 1 }
      else if c = '(' then
        -- parenthetical comment (consumes the rest of the line)
        let inner := rest.takeWhile (fun ch => ¬ ch = ')')
        let afterInner := rest.drop inner.length
        match afterInner with
        | ')' :: _ =>
          let comment_text : String := ⟨inner⟩
          let end_pos := start_pos + (inner.length + 2)
          let (ty, val) := classifyParenComment comment_text
          (st.tokens ++ [⟨ty, val, line_number, start_pos, end_pos⟩], st.errs)
        | _ =>
          -- unclosed parenthesis: SYN error plus a COMMENT token to line end
          let errs := add_error st.errs line_number start_pos orig_len
            "Unclosed parenthesis in comment" ErrorType.SYN
          (st.tokens ++
            [⟨TokenType.COMMENT, ⟨stripped.drop (st.pos + 1)⟩, line_number,
              start_pos, orig_len⟩], errs)
      else if c = ';' then
        -- semicolon comment to end of line
        (st.tokens ++
          [⟨TokenType.COMMENT, ⟨rest⟩, line_number, start_pos, orig_len⟩], st.errs)
      else if c = '[' then
        -- EXPRESSION_PATTERN \[([^\]]+)\]
        let inner := rest.takeWhile (fun ch => ¬ ch = ']')
        let afterInner := rest.drop inner.length
        match afterInner with
        | ']' :: rest2 =>
          if inner.length > 0 then
            let end_pos := start_pos + (inner.length + 2)
            tokenizeLineLoop line_number stripped_count orig_len stripped fuel
              { remaining := rest2, pos := st.pos + inner.length + 2,
                tokens := st.tokens ++
                  [⟨TokenType.EXPRESSION, ⟨inner⟩, line_number, start_pos, end_pos⟩],
                errs := st.errs }
          else
            let errs := add_error st.errs line_number start_pos (start_pos + 1)
              "Unrecognized character" ErrorType.SYN
            tokenizeLineLoop line_number stripped_count orig_len stripped fuel
              { st with remaining := rest, pos := st.pos + 1, errs := errs }
        | _ =>
          let errs := add_error st.errs line_number start_pos (start_pos + 1)
            "Unrecognized character" ErrorType.SYN
          tokenizeLineLoop line_number stripped_count orig_len stripped fuel
            { st with remaining := rest, pos := st.pos + 1, errs := errs }
      else if isAlphaChar c then
        -- WORD_PATTERN: letter followed by a number or a #-variable chain
        let valueLen : Option Nat :=
          match parseFloatQ rest with
          | some (_, n) => some n
          | none => matchVarExpr rest
        match valueLen with
        | some n =>
          let value : String := ⟨rest.take n⟩
          let end_pos := start_pos + (1 + n)
          let letter := c.toUpper
          let (tokens, errs) :=
            match letterTokenType letter with
            | some ty =>
              (st.tokens ++ [⟨ty, value, line_number, start_pos, end_pos⟩], st.errs)
            | none =>
              (st.tokens,
               add_error st.errs line_number start_pos end_pos
                 "Unknown G-code letter" ErrorType.SYN)
          tokenizeLineLoop line_number stripped_count orig_len stripped fuel
            { remaining := rest.drop n, pos := st.pos + 1 + n,
              tokens := tokens, errs := errs }
        | none =>
          let errs := add_error st.errs line_number start_pos (start_pos + 1)
            "Unrecognized character" ErrorType.SYN
          tokenizeLineLoop line_number stripped_count orig_len stripped fuel
            { st with remaining := rest, pos := st.pos + 1, errs := errs }
      else
        let errs := add_error st.errs line_number start_pos (start_pos + 1)
          "Unrecognized character" ErrorType.SYN
        tokenizeLineLoop line_number stripped_count orig_len stripped fuel
          { st with remaining := rest, pos := st.pos + 1, errs := errs }

/-- GCodeLexer._tokenize_line. -/
def tokenize_line (line : String) (line_number : Nat) (errs : List GCodeError) :
    List Token × List GCodeError :=
  let stripped := pyStrip line
  if stripped.data.isEmpty then ([], errs)
  else
    let stripped_count := (line.data.takeWhile isSpaceChar).length
    tokenizeLineLoop line_number stripped_count line.data.length stripped.data
      (stripped.data.length + 1)
      { remaining := stripped.data, pos := 0, tokens := [], errs := errs }

/-- GCodeLexer.tokenize: per line, the line's tokens followed by one
NEWLINE token; a terminal EOF token. -/
def tokenize (gcode_text : String) (errs : List GCodeError) :
    List Token × List GCodeError :=
  let lines := gcode_text.splitOn "\n"
  let (toks, errs) :=
    (lines.enumFrom 1).foldl
      (fun (acc : List Token × List GCodeError) (p : Nat × String) =>
        let (line_num, line) := p
        let (line_tokens, errs) := tokenize_line line line_num acc.2
        (acc.1 ++ line_tokens ++
          [⟨TokenType.NEWLINE, "\n", line_num, line.data.length, line.data.length⟩],
         errs))
      ([], errs)
  (toks ++ [⟨TokenType.EOF, "", lines.length, 0, 0⟩], errs)

/- ===================== src/core/parser.py ===================== -/

/-- Block from src/core/parser.py.  The g_codes and m_codes dicts map each
numeric code to itself, so they are carried as their key lists in
insertion order. -/
structure Block where
  line_number : Nat
  g_codes : List ℚ := []
  m_codes : List ℚ := []
  o_word : Option String := none
  x : Option ℚ := none
  y : Option ℚ := none
  z : Option ℚ := none
  a : Option ℚ := none
  b : Option ℚ := none
  c : Option ℚ := none
  u : Option ℚ := none
  v : Option ℚ := none
  w : Option ℚ := none
  i : Option ℚ := none
  j : Option ℚ := none
  k : Option ℚ := none
  l : Option ℚ := none
  p : Option ℚ := none
  q : Option ℚ := none
  r : Option ℚ := none
  h : Option ℚ := none
  f : Option ℚ := none
  s : Option ℚ := none
  t : Option Int := none
  n : Option Int := none
  comment : Option String := none
  msg_comment : Option String := none
  debug_comment : Option String := none
  python_comment : Option String := none
  tokens : List Token := []
deriving DecidableEq, Repr

/-- getattr(block, axis) for the nine axis letters. -/
def Block.axisValue (blk : Block) : Axis → Option ℚ
  | Axis.x => blk.x | Axis.y => blk.y | Axis.z => blk.z
  | Axis.a => blk.a | Axis.b => blk.b | Axis.c => blk.c
  | Axis.u => blk.u | Axis.v => blk.v | Axis.w => blk.w

/-- Block.has_axis_words. -/
def Block.has_axis_words (blk : Block) : Bool :=
  axisList.any (fun ax => (blk.axisValue ax).isSome)

/-- The motion G-code set used by Block.has_motion. -/
def motionGcodesSet : List ℚ :=
  [0, 1, 2, 3, 5, 33, 38, 73, 76, 80, 81, 82, 83, 84, 85, 86, 87, 88, 89]

/-- Block.has_motion. -/
def Block.has_motion (blk : Block) : Bool :=
  blk.g_codes.any (fun g => g ∈ motionGcodesSet)

/-- GCodeParser._parse_number: Python float(value) on the token text;
None when the text is not a plain numeric literal (the isdigit pre-check
branch also just returns float(value)).  Variable and expression texts
fail the float conversion and yield None. -/
def parse_number (value : String) : Option ℚ :=
  match parseFloatQ value.data with
  | some (v, n) => if n = value.data.length ∧ n > 0 then some v else none
  | none => none

/-- Python dict insertion for the g_codes / m_codes dicts: the key maps to
itself, so re-inserting an existing key leaves the list unchanged. -/
def codeInsert (codes : List ℚ) (v : ℚ) : List ℚ :=
  if v ∈ codes then codes else codes ++ [v]

/-- GCodeParser._process_token (the token has already been appended to
block.tokens by the caller, as in the source). -/
def process_token (blk : Block) (t : Token) : Block :=
  match t.type with
  | TokenType.G_COMMAND =>
    match parse_number t.value with
    | some g => { blk with g_codes := codeInsert blk.g_codes g }
    | none => blk
  | TokenType.M_COMMAND =>
    match parse_number t.value with
    | some m => { blk with m_codes := codeInsert blk.m_codes m }
    | none => blk
  | TokenType.O_COMMAND => { blk with o_word := some t.value }
  | TokenType.X_WORD => { blk with x := parse_number t.value }
  | TokenType.Y_WORD => { blk with y := parse_number t.value }
  | TokenType.Z_WORD => { blk with z := parse_number t.value }
  | TokenType.A_WORD => { blk with a := parse_number t.value }
  | TokenType.B_WORD => { blk with b := parse_number t.value }
  | TokenType.C_WORD => { blk with c := parse_number t.value }
  | TokenType.U_WORD => { blk with u := parse_number t.value }
  | TokenType.V_WORD => { blk with v := parse_number t.value }
  | TokenType.W_WORD => { blk with w := parse_number t.value }
  | TokenType.I_WORD => { blk with i := parse_number t.value }
  | TokenType.J_WORD => { blk with j := parse_number t.value }
  | TokenType.K_WORD => { blk with k := parse_number t.value }
  | TokenType.L_WORD => { blk with l := parse_number t.value }
  | TokenType.P_WORD => { blk with p := parse_number t.value }
  | TokenType.Q_WORD => { blk with q := parse_number t.value }
  | TokenType.R_WORD => { blk with r := parse_number t.value }
  | TokenType.H_WORD => { blk with h := parse_number t.value }
  | TokenType.F_WORD => { blk with f := parse_number t.value }
  | TokenType.S_WORD => { blk with s := parse_number t.value }
  | TokenType.T_WORD => { blk with t := some (pyInt ((parse_number t.value).getD 0)) }
  | TokenType.N_WORD => { blk with n := some (pyInt ((parse_number t.value).getD 0)) }
  | TokenType.COMMENT => { blk with comment := some t.value }
  | TokenType.MSG_COMMENT => { blk with msg_comment := some t.value }
  | TokenType.DEBUG_COMMENT => { blk with debug_comment := some t.value }
  | TokenType.PYTHON_COMMENT => { blk with python_comment := some t.value }
  | _ => blk

/-- GCodeParser.MODAL_GROUPS, in the source's dict insertion order. -/
def MODAL_GROUPS : List (String × List ℚ) :=
  [("motion", [0, 1, 2, 3, 33, 38, 73, 76, 80, 81, 82, 83, 84, 85, 86, 87, 88, 89]),
   ("plane", [17, 18, 19]),
   ("distance", [90, 91]),
   ("arc_distance", [901/10, 911/10]),
   ("feed_rate_mode", [93, 94, 95]),
   ("units", [20, 21]),
   ("cutter_comp", [40, 41, 42]),
   ("tool_length", [43, 49]),
   ("coordinate_system", [54, 55, 56, 57, 58, 59, 591/10, 592/10, 593/10]),
   ("path_control", [61, 611/10, 64]),
   ("return_mode", [98, 99]),
   ("non_modal", [4, 10, 28, 30, 53, 92, 921/10, 922/10, 923/10])]

/-- One modal group's step of the conflict scan in
GCodeParser._is_block_valid: a group with more than one active code makes
the block invalid and emits a SEMANTIC diagnostic spanning the offending
G tokens (when those tokens are found). -/
def modalScanStep (blk : Block) (acc : Bool × List GCodeError)
    (grp : String × List ℚ) : Bool × List GCodeError :=
  let group_name := grp.1
  let group_codes := grp.2
  let active_codes := blk.g_codes.filter (fun g => g ∈ group_codes)
  if active_codes.length > 1 then
    let error_tokens := blk.tokens.filter
      (fun t =>
        t.type = TokenType.G_COMMAND &&
          match parse_number t.value with
          | some v => decide (v ∈ active_codes)
          | none => false)
    match error_tokens.head?, error_tokens.getLast? with
    | some tFirst, some tLast =>
      (false,
       add_error acc.2 blk.line_number tFirst.char_start tLast.char_end
         ("Multiple codes from " ++ group_name ++ " modal group") ErrorType.SEMANTIC)
    | _, _ => (false, acc.2)
  else acc

/-- The modal-conflict scan of GCodeParser._is_block_valid over the fixed
modal-group table. -/
def blockModalScan (blk : Block) (acc : Bool × List GCodeError) :
    Bool × List GCodeError :=
  MODAL_GROUPS.foldl (modalScanStep blk) acc

/-- GCodeParser._is_block_valid: modal-group exclusivity plus the
group-0/motion conflict check with the lone G53 exception.  Returns the
validity flag and the updated diagnostics list. -/
def is_block_valid (blk : Block) (errs : List GCodeError) :
    Bool × List GCodeError :=
  let scanned := blockModalScan blk (true, errs)
  let group0_codes := blk.g_codes.filter (fun g => g ∈ (alist_get MODAL_GROUPS "non_modal").getD [])
  let group1_codes := blk.g_codes.filter (fun g => g ∈ (alist_get MODAL_GROUPS "motion").getD [])
  if group0_codes ≠ [] ∧ group1_codes ≠ [] ∧ blk.has_axis_words then
    if ¬ (group0_codes.length = 1 ∧ (53 : ℚ) ∈ group0_codes) then
      (false,
       add_error scanned.2 blk.line_number 0 0
         "Group 0 code conflicts with motion code when axis words present"
         ErrorType.SEMANTIC)
    else scanned
  else scanned

/-- The token loop of GCodeParser.parse.  On NEWLINE (and EOF) the current
block is validated; only valid blocks are appended to the result list.
Tokens after EOF are ignored (the source breaks out of the loop). -/
def parseLoop :
    List Token → Option Block → List Block → List GCodeError →
      List Block × List GCodeError
  | [], _, blocks, errs => (blocks, errs)
  | t :: rest, current_block, blocks, errs =>
    if t.type = TokenType.NEWLINE then
      match current_block with
      | some blk =>
        let res := is_block_valid blk errs
        parseLoop rest none (if res.1 then blocks ++ [blk] else blocks) res.2
      | none => parseLoop rest none blocks errs
    else if t.type = TokenType.EOF then
      match current_block with
      | some blk =>
        let res := is_block_valid blk errs
        ((if res.1 then blocks ++ [blk] else blocks), res.2)
      | none => (blocks, errs)
    else
      let blk := current_block.getD { line_number := t.line_number }
      let blk := { blk with tokens := blk.tokens ++ [t] }
      parseLoop rest (some (process_token blk t)) blocks errs

/-- GCodeParser.parse. -/
def parser_parse (tokens : List Token) (errs : List GCodeError) :
    List Block × List GCodeError :=
  parseLoop tokens none [] errs

/- ===================== src/utils/variables.py ===================== -/

/-- The coordinate-system offset system parameters 5200 .. 5368
(9 systems × 9 axes), all zero. -/
def csOffsetParams : List (Int × ℚ) :=
  (List.range 9).flatMap
    (fun i => (List.range 9).map (fun a => ((5200 + i * 20 + a : Int), (0 : ℚ))))

/-- VariableManager system parameter defaults (current position, tool and
modal information, coordinate-system offsets), in insertion order. -/
def systemParamsDefault : List (Int × ℚ) :=
  [(5420, 0), (5421, 0), (5422, 0), (5423, 0), (5424, 0), (5425, 0),
   (5426, 0), (5427, 0), (5428, 0),
   (5400, 0), (5401, 0), (5402, 0), (5403, 0), (5404, 0), (5405, 0),
   (5406, 0), (5407, 0), (5408, 0), (5409, 0), (5410, 0), (5411, 0),
   (5070, 1), (5080, 17), (5090, 90), (5100, 94), (5110, 21),
   (5120, 40), (5130, 49), (5140, 54), (5150, 64), (5160, 98)] ++ csOffsetParams

/-- VariableManager predefined named parameter defaults. -/
def predefinedNamedDefault : List (String × ℚ) :=
  [("_x", 0), ("_y", 0), ("_z", 0), ("_a", 0), ("_b", 0), ("_c", 0),
   ("_u", 0), ("_v", 0), ("_w", 0),
   ("_motion", 1), ("_plane", 17), ("_distance", 90), ("_feed", 0),
   ("_speed", 0), ("_tool", 0)]

/-- VariableManager from src/utils/variables.py. -/
structure VarManager where
  numbered_parameters : List (Int × ℚ) := []
  local_parameters : List (String × ℚ) := []
  global_parameters : List (String × ℚ) := []
  system_parameters : List (Int × ℚ) := systemParamsDefault
  predefined_named : List (String × ℚ) := predefinedNamedDefault

/-- VariableManager.set_numbered_parameter: user range 1..5399 is
writable, anything else is rejected (system parameters are read-only). -/
def VarManager.set_numbered_parameter (vm : VarManager) (number : Int) (value : ℚ) :
    VarManager × Bool :=
  if 1 ≤ number ∧ number ≤ 5399 then
    ({ vm with numbered_parameters := alist_set vm.numbered_parameters number value }, true)
  else
    (vm, false)

/-- VariableManager.get_numbered_parameter: system parameters shadow user
parameters; missing parameters read as 0.0. -/
def VarManager.get_numbered_parameter (vm : VarManager) (number : Int) : ℚ :=
  match alist_get vm.system_parameters number with
  | some v => v
  | none => (alist_get vm.numbered_parameters number).getD 0

/-- VariableManager.clear_user_variables. -/
def VarManager.clear_user_variables (vm : VarManager) : VarManager :=
  { vm with numbered_parameters := [], local_parameters := [], global_parameters := [] }

/-- VariableManager.get_all_variables: a dict keyed by "#name"; built by
inserting numbered, system, local, global and predefined parameters in
that order (later inserts overwrite). -/
def VarManager.get_all_variables (vm : VarManager) : List (String × ℚ) :=
  let step := fun (acc : List (String × ℚ)) (p : String × ℚ) => alist_set acc p.1 p.2
  let acc := vm.numbered_parameters.foldl
    (fun acc p => step acc ("#" ++ toString p.1, p.2)) []
  let acc := vm.system_parameters.foldl
    (fun acc p => step acc ("#" ++ toString p.1, p.2)) acc
  let acc := vm.local_parameters.foldl (fun acc p => step acc ("#" ++ p.1, p.2)) acc
  let acc := vm.global_parameters.foldl (fun acc p => step acc ("#" ++ p.1, p.2)) acc
  vm.predefined_named.foldl (fun acc p => step acc ("#" ++ p.1, p.2)) acc

/- ===================== src/handlers/o_words.py ===================== -/

/-- OWordType from src/handlers/o_words.py. -/
inductive OWordType where
  | SUBROUTINE | CONDITIONAL | LOOP_WHILE | LOOP_REPEAT
  | CALL | RETURN | BREAK | CONTINUE
deriving DecidableEq, Repr

/-- An O-word label: an int when the text parses as one, else the raw
string (the source's Union[str, int]). -/
inductive OLabel where
  | num (n : Int)
  | name (s : String)
deriving DecidableEq, Repr

/-- OWordCommand from src/handlers/o_words.py. -/
structure OWordCommand where
  type : OWordType
  label : OLabel
  expression : Option String := none
  arguments : List ℚ := []
  line_number : Nat := 0
deriving DecidableEq, Repr

/-- SubroutineDefinition from src/handlers/o_words.py. -/
structure SubroutineDefinition where
  name : OLabel
  start_line : Nat
  end_line : Nat
  parameter_count : Nat := 0
  local_variables : List (String × ℚ) := []
deriving DecidableEq, Repr

/-- CallStackFrame from src/handlers/o_words.py. -/
structure CallStackFrame where
  subroutine_name : OLabel
  return_line : Nat
  local_variables : List (String × ℚ)
  arguments : List ℚ
deriving DecidableEq, Repr

/-- LoopContext from src/handlers/o_words.py. -/
structure LoopContext where
  type : OWordType
  label : OLabel
  start_line : Nat
  end_line : Nat
  condition : Option String := none
  repeat_count : Option Int := none
  current_iteration : Int := 0
deriving DecidableEq, Repr

/-- The mutable state of OWordProcessor.  next_line and
should_skip_to_line are dead fields of the source and are omitted. -/
structure OWordState where
  subroutines : List (OLabel × SubroutineDefinition) := []
  call_stack : List CallStackFrame := []
  loop_stack : List LoopContext := []
  current_line : Nat := 0
  return_value : Option ℚ := none
  blocks : List Block := []
  o_word_map : List (Nat × OWordCommand) := []

/-- The abstracted ExpressionEvaluator.evaluate: expression text, the
variables dict from get_all_variables, line number; None on evaluation
failure.  The evaluator's own diagnostics are outside this model. -/
def EvalFn : Type := String → List (String × ℚ) → Nat → Option ℚ

/-- Python str.split() with no argument: split on whitespace runs,
discarding empty pieces. -/
def pySplit (s : String) : List String :=
  ((s.data.splitOnP isSpaceChar).map (fun l => (⟨l⟩ : String))).filter
    (fun piece => ¬ piece.data.isEmpty)

/-- Python int(str): optional sign followed by digits (surrounding
whitespace and underscores are not needed for this input). -/
def parseIntStr (s : String) : Option Int :=
  let (sign, rest) :=
    match s.data with
    | '+' :: cs => ((1 : Int), cs)
    | '-' :: cs => ((-1 : Int), cs)
    | cs => ((1 : Int), cs)
  let (v, n, rest2) := takeDigits rest 0 0
  if n > 0 ∧ rest2.isEmpty then some (sign * (v : Int)) else none

/-- The command-name table of OWordProcessor._parse_o_word. -/
def oCommandMap (command_part : String) : Option OWordType :=
  if command_part = "sub" ∨ command_part = "endsub" then some OWordType.SUBROUTINE
  else if command_part = "if" ∨ command_part = "else" ∨ command_part = "elseif"
      ∨ command_part = "endif" then some OWordType.CONDITIONAL
  else if command_part = "while" ∨ command_part = "endwhile" then some OWordType.LOOP_WHILE
  else if command_part = "repeat" ∨ command_part = "endrepeat" then some OWordType.LOOP_REPEAT
  else if command_part = "call" then some OWordType.CALL
  else if command_part = "return" then some OWordType.RETURN
  else if command_part = "break" then some OWordType.BREAK
  else if command_part = "continue" then some OWordType.CONTINUE
  else none

/-- The call-argument loop of OWordProcessor._parse_o_word: bracketed
arguments are evaluated (a failed evaluation is silently skipped), bare
arguments must parse as floats, otherwise an Invalid-argument SYN
diagnostic aborts the parse. -/
def parseCallArguments (ev : EvalFn) (vm : VarManager) (line_number : Nat) :
    List String → List ℚ → List GCodeError → Option (List ℚ) × List GCodeError
  | [], acc, errs => (some acc, errs)
  | arg_str :: rest, acc, errs =>
    if arg_str.startsWith "[" ∧ arg_str.endsWith "]" then
      let arg_expr := (arg_str.drop 1).dropRight 1
      match ev arg_expr vm.get_all_variables line_number with
      | some v => parseCallArguments ev vm line_number rest (acc ++ [v]) errs
      | none => parseCallArguments ev vm line_number rest acc errs
    else
      match parse_number arg_str with
      | some v => parseCallArguments ev vm line_number rest (acc ++ [v]) errs
      | none =>
        (none,
         add_error errs line_number 0 0 "Invalid argument" ErrorType.SYN)

/-- OWordProcessor._parse_o_word. -/
def parse_o_word (ev : EvalFn) (vm : VarManager) (blk : Block)
    (errs : List GCodeError) : Option OWordCommand × List GCodeError :=
  match blk.o_word with
  | none => (none, errs)
  | some ow =>
    let parts := pySplit (pyStrip ow)
    if parts.length < 2 then
      (none, add_error errs blk.line_number 0 0 "Invalid O-word format" ErrorType.SYN)
    else
      let label_part := parts.getD 0 ""
      let command_part := (parts.getD 1 "").toLower
      let label_str :=
        if label_part.startsWith "O" ∨ label_part.startsWith "o" then label_part.drop 1
        else label_part
      let label :=
        match parseIntStr label_str with
        | some n => OLabel.num n
        | none => OLabel.name label_str
      match oCommandMap command_part with
      | none =>
        (none, add_error errs blk.line_number 0 0 "Unknown O-word command" ErrorType.SYN)
      | some ty =>
        let tailParts := parts.drop 2
        if tailParts.length > 0 then
          if command_part = "if" ∨ command_part = "elseif" ∨ command_part = "while" then
            let expr_part := " ".intercalate tailParts
            if expr_part.startsWith "[" ∧ expr_part.endsWith "]" then
              (some { type := ty, label := label,
                      expression := some ((expr_part.drop 1).dropRight 1),
                      line_number := blk.line_number }, errs)
            else
              (none,
               add_error errs blk.line_number 0 0
                 "Expression must be in brackets" ErrorType.SYN)
          else if command_part = "call" then
            match parseCallArguments ev vm blk.line_number tailParts [] errs with
            | (some args, errs) =>
              (some { type := ty, label := label, arguments := args,
                      line_number := blk.line_number }, errs)
            | (none, errs) => (none, errs)
          else if command_part = "return" then
            let expr_part := " ".intercalate tailParts
            if expr_part.startsWith "[" ∧ expr_part.endsWith "]" then
              (some { type := ty, label := label,
                      expression := some ((expr_part.drop 1).dropRight 1),
                      line_number := blk.line_number }, errs)
            else
              (some { type := ty, label := label, line_number := blk.line_number }, errs)
          else
            (some { type := ty, label := label, line_number := blk.line_number }, errs)
        else
          (some { type := ty, label := label, line_number := blk.line_number }, errs)

/-- OWordProcessor._get_command_text: looks the block up by the command's
source line number (not by its map index) and returns the second word, or
"" when out of range.  A block without an o_word would raise in Python;
it reads as "" here (unreachable in the modelled scenarios). -/
def get_command_text (st : OWordState) (o_cmd : OWordCommand) : String :=
  if h : o_cmd.line_number < st.blocks.length then
    let parts := pySplit (pyStrip (((st.blocks.get ⟨o_cmd.line_number, h⟩).o_word).getD ""))
    if parts.length ≥ 2 then (parts.getD 1 "").toLower else ""
  else ""

/-- Python truthiness for the `if o_cmd.expression:` tests: None and the
empty string are falsy. -/
def truthyStr : Option String → Option String
  | some s => if s.data.isEmpty then none else some s
  | none => none

/-- OWordProcessor._find_matching_else_or_endif — a stub in the source:
it ignores the label and returns start_line + 1. -/
def find_matching_else_or_endif (_label : OLabel) (start_line : Nat) : Nat :=
  start_line + 1

/-- OWordProcessor._find_matching_endwhile — a stub in the source: it
ignores the label and returns start_line + 1. -/
def find_matching_endwhile (_label : OLabel) (start_line : Nat) : Nat :=
  start_line + 1

/-- OWordProcessor._find_matching_endrepeat — a stub in the source: it
ignores the label and returns start_line + 1. -/
def find_matching_endrepeat (_label : OLabel) (start_line : Nat) : Nat :=
  start_line + 1

/-- The label written on a block's o_word text (helper for the
spec-modelled endwhile finder). -/
def oWordLabelOf (blk : Block) : OLabel :=
  let parts := pySplit (pyStrip (blk.o_word.getD ""))
  let label_part := parts.getD 0 ""
  let label_str :=
    if label_part.startsWith "O" ∨ label_part.startsWith "o" then label_part.drop 1
    else label_part
  match parseIntStr label_str with
  | some n => OLabel.num n
  | none => OLabel.name label_str

/-- The command word on a block's o_word text (helper for the
spec-modelled endwhile finder). -/
def oWordCmdOf (blk : Block) : String :=
  ((pySplit (pyStrip (blk.o_word.getD ""))).getD 1 "").toLower

/-- Scan for the spec-modelled endwhile finder: first endwhile of the
given label at depth 0 among the lines after the opener. -/
def endwhileScan (label : OLabel) : List (Nat × Block) → Nat → Option Nat
  | [], _ => none
  | (i, blk) :: rest, depth =>
    if oWordLabelOf blk = label ∧ oWordCmdOf blk = "while" then
      endwhileScan label rest (depth + 1)
    else if oWordLabelOf blk = label ∧ oWordCmdOf blk = "endwhile" then
      if depth = 0 then some i else endwhileScan label rest (depth - 1)
    else endwhileScan label rest depth

/-- Modelled from the spec: the true matching endwhile line for the while
opener at start_line — the first later line holding an `endwhile` with the
same label at the same nesting depth of that label's while/endwhile pairs
(the source's _find_matching_endwhile is a stub, see §4.5/§9 of the
spec). -/
def find_matching_endwhile_spec (blocks : List Block) (label : OLabel)
    (start_line : Nat) : Option Nat :=
  endwhileScan label ((blocks.enum).filter (fun p => p.1 > start_line)) 0

/-- The O-word scan of OWordProcessor.preprocess_program: parse the
o_word of every block that has one (Python truthiness: a present,
non-empty string) into the line-indexed o_word_map. -/
def buildOWordMap (ev : EvalFn) (vm : VarManager) :
    List (Nat × Block) → List (Nat × OWordCommand) → List GCodeError →
      List (Nat × OWordCommand) × List GCodeError
  | [], acc, errs => (acc, errs)
  | (i, blk) :: rest, acc, errs =>
    match truthyStr blk.o_word with
    | some _ =>
      match parse_o_word ev vm blk errs with
      | (some o_cmd, errs) => buildOWordMap ev vm rest (acc ++ [(i, o_cmd)]) errs
      | (none, errs) => buildOWordMap ev vm rest acc errs
    | none => buildOWordMap ev vm rest acc errs

/-- OWordProcessor._validate_program_structure: match openers with
closers on a stack and record subroutine definitions.  Faithful to the
source, the SUBROUTINE case tests endswith('sub') first, which is also
true of 'endsub', so endsub lines are pushed as new openers and the
endsub branch is dead code. -/
def validateStructure (st : OWordState) :
    List (Nat × OWordCommand) → List (String × OLabel × Nat) →
      List (OLabel × SubroutineDefinition) → List GCodeError →
      Bool × List (OLabel × SubroutineDefinition) × List GCodeError
  | [], stack, subs, errs =>
    match stack.getLast? with
    | some (structure_type, _, line_num) =>
      (false, subs,
       add_error errs line_num 0 0 ("Unclosed " ++ structure_type ++ " structure")
         ErrorType.SYN)
    | none => (true, subs, errs)
  | (line_num, o_cmd) :: rest, stack, subs, errs =>
    match o_cmd.type with
    | OWordType.SUBROUTINE =>
      let cmdText := get_command_text st o_cmd
      if cmdText.endsWith "sub" then
        validateStructure st rest (stack ++ [("sub", o_cmd.label, line_num)]) subs errs
      else if cmdText.endsWith "endsub" then
        match stack.getLast? with
        | some (ty, lbl, start_line) =>
          if ty = "sub" ∧ lbl = o_cmd.label then
            validateStructure st rest stack.dropLast
              (alist_set subs o_cmd.label
                ⟨o_cmd.label, start_line, line_num, 0, []⟩) errs
          else
            (false, subs,
             add_error errs o_cmd.line_number 0 0 "Mismatched endsub" ErrorType.SYN)
        | none =>
          (false, subs,
           add_error errs o_cmd.line_number 0 0 "Mismatched endsub" ErrorType.SYN)
      else validateStructure st rest stack subs errs
    | OWordType.CONDITIONAL =>
      let cmdText := get_command_text st o_cmd
      if cmdText = "if" then
        validateStructure st rest (stack ++ [("if", o_cmd.label, line_num)]) subs errs
      else if cmdText = "endif" then
        match stack.getLast? with
        | some (ty, lbl, _) =>
          if ty = "if" ∧ lbl = o_cmd.label then
            validateStructure st rest stack.dropLast subs errs
          else
            (false, subs,
             add_error errs o_cmd.line_number 0 0 "Mismatched endif" ErrorType.SYN)
        | none =>
          (false, subs,
           add_error errs o_cmd.line_number 0 0 "Mismatched endif" ErrorType.SYN)
      else validateStructure st rest stack subs errs
    | OWordType.LOOP_WHILE =>
      let cmdText := get_command_text st o_cmd
      if cmdText = "while" then
        validateStructure st rest (stack ++ [("while", o_cmd.label, line_num)]) subs errs
      else if cmdText = "endwhile" then
        match stack.getLast? with
        | some (ty, lbl, _) =>
          if ty = "while" ∧ lbl = o_cmd.label then
            validateStructure st rest stack.dropLast subs errs
          else
            (false, subs,
             add_error errs o_cmd.line_number 0 0 "Mismatched endwhile" ErrorType.SYN)
        | none =>
          (false, subs,
           add_error errs o_cmd.line_number 0 0 "Mismatched endwhile" ErrorType.SYN)
      else validateStructure st rest stack subs errs
    | OWordType.LOOP_REPEAT =>
      let cmdText := get_command_text st o_cmd
      if cmdText = "repeat" then
        validateStructure st rest (stack ++ [("repeat", o_cmd.label, line_num)]) subs errs
      else if cmdText = "endrepeat" then
        match stack.getLast? with
        | some (ty, lbl, _) =>
          if ty = "repeat" ∧ lbl = o_cmd.label then
            validateStructure st rest stack.dropLast subs errs
          else
            (false, subs,
             add_error errs o_cmd.line_number 0 0 "Mismatched endrepeat" ErrorType.SYN)
        | none =>
          (false, subs,
           add_error errs o_cmd.line_number 0 0 "Mismatched endrepeat" ErrorType.SYN)
      else validateStructure st rest stack subs errs
    | _ => validateStructure st rest stack subs errs

/-- OWordProcessor.preprocess_program: rebuild blocks, o_word_map and the
subroutine table; the call and loop stacks are NOT cleared here. -/
def preprocess_program (ev : EvalFn) (vm : VarManager) (st : OWordState)
    (blocks : List Block) (errs : List GCodeError) :
    Bool × OWordState × List GCodeError :=
  let st := { st with blocks := blocks, o_word_map := [], subroutines := [] }
  let (map, errs) := buildOWordMap ev vm blocks.enum [] errs
  let st := { st with o_word_map := map }
  let (ok, subs, errs) := validateStructure st map [] [] errs
  (ok, { st with subroutines := subs }, errs)

/-- OWordProcessor._execute_call: undefined label is a RUNTIME error and
the call is aborted; otherwise the positional arguments are bound to the
numbered parameters #1, #2, ..., a frame with return_line = call line + 1
is pushed, and execution jumps to the line after the subroutine header. -/
def execute_call (st : OWordState) (vm : VarManager) (o_cmd : OWordCommand)
    (errs : List GCodeError) :
    Option Nat × OWordState × VarManager × List GCodeError :=
  match alist_get st.subroutines o_cmd.label with
  | none =>
    (none, st, vm,
     add_error errs o_cmd.line_number 0 0 "Undefined subroutine" ErrorType.RUNTIME)
  | some subroutine =>
    let frame : CallStackFrame :=
      { subroutine_name := o_cmd.label, return_line := st.current_line + 1,
        local_variables := [], arguments := o_cmd.arguments }
    let vm := (o_cmd.arguments.enumFrom 1).foldl
      (fun vm p => (vm.set_numbered_parameter (p.1 : Int) p.2).1) vm
    let st := { st with call_stack := st.call_stack ++ [frame] }
    (some (subroutine.start_line + 1), st, vm, errs)

/-- OWordProcessor._execute_return: empty call stack is a RUNTIME error
with no jump; otherwise the optional return expression is evaluated, the
top frame is popped, and execution resumes at its recorded return line. -/
def execute_return (ev : EvalFn) (st : OWordState) (vm : VarManager)
    (o_cmd : OWordCommand) (errs : List GCodeError) :
    Option Nat × OWordState × VarManager × List GCodeError :=
  match st.call_stack.getLast? with
  | none =>
    (none, st, vm,
     add_error errs o_cmd.line_number 0 0 "Return outside of subroutine"
       ErrorType.RUNTIME)
  | some frame =>
    let rv :=
      match truthyStr o_cmd.expression with
      | some e => ev e vm.get_all_variables o_cmd.line_number
      | none => none
    let st := { st with return_value := rv, call_stack := st.call_stack.dropLast }
    (some frame.return_line, st, vm, errs)

/-- OWordProcessor._execute_conditional. -/
def execute_conditional (ev : EvalFn) (st : OWordState) (vm : VarManager)
    (o_cmd : OWordCommand) (errs : List GCodeError) :
    Option Nat × OWordState × VarManager × List GCodeError :=
  let cmdText := get_command_text st o_cmd
  if cmdText = "if" ∨ cmdText = "elseif" then
    match truthyStr o_cmd.expression with
    | some e =>
      match ev e vm.get_all_variables o_cmd.line_number with
      | none => (none, st, vm, errs)
      | some v =>
        if v = 0 then
          (some (find_matching_else_or_endif o_cmd.label st.current_line), st, vm, errs)
        else (none, st, vm, errs)
    | none => (none, st, vm, errs)
  else (none, st, vm, errs)

/-- OWordProcessor._execute_while_loop.  On a true while guard a loop
context is pushed whose end_line is _find_matching_endwhile(...) - 1 (the
stub makes this the while line itself); endwhile pops the matching
context and jumps back to the while line. -/
def execute_while_loop (ev : EvalFn) (st : OWordState) (vm : VarManager)
    (o_cmd : OWordCommand) (errs : List GCodeError) :
    Option Nat × OWordState × VarManager × List GCodeError :=
  let cmdText := get_command_text st o_cmd
  if cmdText = "while" then
    match truthyStr o_cmd.expression with
    | some e =>
      match ev e vm.get_all_variables o_cmd.line_number with
      | none => (none, st, vm, errs)
      | some v =>
        if v = 0 then
          (some (find_matching_endwhile o_cmd.label st.current_line), st, vm, errs)
        else
          let ctx : LoopContext :=
            { type := OWordType.LOOP_WHILE, label := o_cmd.label,
              start_line := st.current_line,
              end_line := find_matching_endwhile o_cmd.label st.current_line - 1,
              condition := some e }
          (none, { st with loop_stack := st.loop_stack ++ [ctx] }, vm, errs)
    | none => (none, st, vm, errs)
  else if cmdText = "endwhile" then
    match st.loop_stack.getLast? with
    | some ctx =>
      if ctx.label = o_cmd.label then
        (some ctx.start_line, { st with loop_stack := st.loop_stack.dropLast }, vm, errs)
      else (none, st, vm, errs)
    | none => (none, st, vm, errs)
  else (none, st, vm, errs)

/-- OWordProcessor._execute_repeat_loop.  At endrepeat the top context's
iteration counter is incremented in place before the comparison; a
context without a repeat_count (a while context matched by label) would
raise a TypeError in Python, caught by execute_o_word as a RUNTIME
diagnostic — modelled directly here. -/
def execute_repeat_loop (ev : EvalFn) (st : OWordState) (vm : VarManager)
    (o_cmd : OWordCommand) (errs : List GCodeError) :
    Option Nat × OWordState × VarManager × List GCodeError :=
  let cmdText := get_command_text st o_cmd
  if cmdText = "repeat" then
    match truthyStr o_cmd.expression with
    | some e =>
      match ev e vm.get_all_variables o_cmd.line_number with
      | none =>
        (some (find_matching_endrepeat o_cmd.label st.current_line), st, vm, errs)
      | some v =>
        if v ≤ 0 then
          (some (find_matching_endrepeat o_cmd.label st.current_line), st, vm, errs)
        else
          let ctx : LoopContext :=
            { type := OWordType.LOOP_REPEAT, label := o_cmd.label,
              start_line := st.current_line,
              end_line := find_matching_endrepeat o_cmd.label st.current_line - 1,
              repeat_count := some (pyInt v) }
          (none, { st with loop_stack := st.loop_stack ++ [ctx] }, vm, errs)
    | none => (none, st, vm, errs)
  else if cmdText = "endrepeat" then
    match st.loop_stack.getLast? with
    | some ctx =>
      if ctx.label = o_cmd.label then
        let ctx' := { ctx with current_iteration := ctx.current_iteration + 1 }
        match ctx.repeat_count with
        | some cnt =>
          if ctx'.current_iteration < cnt then
            (some (ctx.start_line + 1),
             { st with loop_stack := st.loop_stack.dropLast ++ [ctx'] }, vm, errs)
          else
            (none, { st with loop_stack := st.loop_stack.dropLast }, vm, errs)
        | none =>
          (none, { st with loop_stack := st.loop_stack.dropLast ++ [ctx'] }, vm,
           add_error errs o_cmd.line_number 0 0 "Error executing O-word"
             ErrorType.RUNTIME)
      else (none, st, vm, errs)
    | none => (none, st, vm, errs)
  else (none, st, vm, errs)

/-- Innermost-outward search of the loop stack for a label (used by break
and continue): the highest index whose context carries the label. -/
def loopSearch (stack : List LoopContext) (label : OLabel) :
    Option (Nat × LoopContext) :=
  (stack.enum.reverse).find? (fun p => p.2.label = label)

/-- OWordProcessor._execute_break: truncate the loop stack to exclude the
matching frame and jump to its recorded end_line + 1; no match is a
RUNTIME error with no jump. -/
def execute_break (st : OWordState) (o_cmd : OWordCommand)
    (errs : List GCodeError) : Option Nat × OWordState × List GCodeError :=
  match loopSearch st.loop_stack o_cmd.label with
  | some (i, ctx) =>
    (some (ctx.end_line + 1), { st with loop_stack := st.loop_stack.take i }, errs)
  | none =>
    (none, st,
     add_error errs o_cmd.line_number 0 0 "Break outside of loop" ErrorType.RUNTIME)

/-- OWordProcessor._execute_continue. -/
def execute_continue (st : OWordState) (o_cmd : OWordCommand)
    (errs : List GCodeError) : Option Nat × OWordState × List GCodeError :=
  match loopSearch st.loop_stack o_cmd.label with
  | some (_, ctx) =>
    if ctx.type = OWordType.LOOP_WHILE then (some ctx.start_line, st, errs)
    else if ctx.type = OWordType.LOOP_REPEAT then (some ctx.end_line, st, errs)
    else (none, st, errs)
  | none =>
    (none, st,
     add_error errs o_cmd.line_number 0 0 "Continue outside of loop"
       ErrorType.RUNTIME)

/-- OWordProcessor.execute_o_word: dispatch on the command found at the
line in the o_word_map (None when the line carries none). -/
def execute_o_word (ev : EvalFn) (st : OWordState) (vm : VarManager)
    (line_number : Nat) (errs : List GCodeError) :
    Option Nat × OWordState × VarManager × List GCodeError :=
  match alist_get st.o_word_map line_number with
  | none => (none, st, vm, errs)
  | some o_cmd =>
    let st := { st with current_line := line_number }
    match o_cmd.type with
    | OWordType.CALL => execute_call st vm o_cmd errs
    | OWordType.RETURN => execute_return ev st vm o_cmd errs
    | OWordType.CONDITIONAL => execute_conditional ev st vm o_cmd errs
    | OWordType.LOOP_WHILE => execute_while_loop ev st vm o_cmd errs
    | OWordType.LOOP_REPEAT => execute_repeat_loop ev st vm o_cmd errs
    | OWordType.BREAK =>
      let (nl, st, errs) := execute_break st o_cmd errs
      (nl, st, vm, errs)
    | OWordType.CONTINUE =>
      let (nl, st, errs) := execute_continue st o_cmd errs
      (nl, st, vm, errs)
    | OWordType.SUBROUTINE => (none, st, vm, errs)

/- ===================== src/handlers/g_codes.py ===================== -/

/-- The per-axis value of GCodeHandlers._calculate_target_position: in
absolute mode a specified axis is taken as written and an absent axis
keeps its current relative coordinate (current absolute minus active-cs
and G92 offsets); in incremental mode a specified axis adds to the
current relative coordinate. -/
def targetAxisValue (blk : Block) (ms : MachineState) (ax : Axis) : ℚ :=
  let current_abs := ms.current_position.get_axis ax
  let cs_offset := ms.get_active_coordinate_system.get_offset ax
  let g92_offset := ms.g92_offset.get_offset ax
  let current_relative := current_abs - cs_offset - g92_offset
  if ms.is_distance_mode_absolute then
    match blk.axisValue ax with
    | some v => v
    | none => current_relative
  else
    match blk.axisValue ax with
    | some v => current_relative + v
    | none => current_relative

/-- GCodeHandlers._calculate_target_position (the source loops over the
nine axes; it never actually returns None). -/
def calculate_target_position (blk : Block) (ms : MachineState) : Position :=
  axisList.foldl (fun acc ax => acc.set_axis ax (targetAxisValue blk ms ax)) {}

/-- GCodeHandlers.handle_g0_rapid_positioning. -/
def handle_g0 (μ : MathOracle) (blk : Block) (ms : MachineState) (g : GeomState)
    (errs : List GCodeError) : Bool × MachineState × GeomState × List GCodeError :=
  let ms := ms.update_modal_group ModalKey.motion 0
  if ¬ blk.has_axis_words then (true, ms, g, errs)
  else
    let target_position := calculate_target_position blk ms
    let abs_position := ms.calculate_absolute_position target_position
    let start_pos := ms.current_position.to_list
    let end_pos := abs_position.to_list
    let (g, _) := g.add_linear_move μ start_pos end_pos blk.line_number MoveType.RAPID
    let ms := ms.update_position abs_position
    (true, ms, g, errs)

/-- The motion tail of handle_g1_linear_interpolation (after the feed-rate
checks). -/
def handleG1Motion (μ : MathOracle) (blk : Block) (ms : MachineState)
    (g : GeomState) (errs : List GCodeError) :
    Bool × MachineState × GeomState × List GCodeError :=
  if ¬ blk.has_axis_words then (true, ms, g, errs)
  else
    let target_position := calculate_target_position blk ms
    let abs_position := ms.calculate_absolute_position target_position
    let start_pos := ms.current_position.to_list
    let end_pos := abs_position.to_list
    let (g, _) := g.add_linear_move μ start_pos end_pos blk.line_number MoveType.FEED
      (some ms.feed_rate)
    let ms := ms.update_position abs_position
    (true, ms, g, errs)

/-- GCodeHandlers.handle_g1_linear_interpolation: a present F word must be
positive (else SEMANTIC, no motion), an absent F word requires a positive
inherited feed rate (else SEMANTIC, no motion); with axis words a FEED
segment is added and the position committed. -/
def handle_g1 (μ : MathOracle) (blk : Block) (ms : MachineState) (g : GeomState)
    (errs : List GCodeError) : Bool × MachineState × GeomState × List GCodeError :=
  let ms := ms.update_modal_group ModalKey.motion 1
  match blk.f with
  | some fval =>
    if fval ≤ 0 then
      (false, ms, g,
       add_error errs blk.line_number 0 0 "Feed rate must be positive for G1"
         ErrorType.SEMANTIC)
    else
      handleG1Motion μ blk { ms with feed_rate := fval } g errs
  | none =>
    if ms.feed_rate ≤ 0 then
      (false, ms, g,
       add_error errs blk.line_number 0 0 "No feed rate specified for G1 move"
         ErrorType.SEMANTIC)
    else
      handleG1Motion μ blk ms g errs

/-- GCodeHandlers._calculate_arc_center: start from a copy of the current
position, map I/J/K onto the two axes of the active plane, and apply them
as absolute or incremental per the arc-distance modal flag (the source
never returns None). -/
def calculate_arc_center (blk : Block) (ms : MachineState)
    (plane_axes : Axis × Axis) : Position :=
  let center := ms.current_position
  let (axis1, axis2) := plane_axes
  let (i_offset, j_offset) :=
    if plane_axes = (Axis.x, Axis.y) then (blk.i.getD 0, blk.j.getD 0)
    else if plane_axes = (Axis.x, Axis.z) then (blk.i.getD 0, blk.k.getD 0)
    else if plane_axes = (Axis.y, Axis.z) then (blk.j.getD 0, blk.k.getD 0)
    else (blk.i.getD 0, blk.j.getD 0)
  if ms.is_arc_distance_mode_absolute then
    (center.set_axis axis1 i_offset).set_axis axis2 j_offset
  else
    let current_axis1 := ms.current_position.get_axis axis1
    let current_axis2 := ms.current_position.get_axis axis2
    (center.set_axis axis1 (current_axis1 + i_offset)).set_axis axis2
      (current_axis2 + j_offset)

/-- The plane-name string built by _handle_arc_motion
(''.join(plane_axes)). -/
def planeName (plane_axes : Axis × Axis) : String :=
  let nameOf : Axis → String := fun ax =>
    match ax with
    | Axis.x => "X" | Axis.y => "Y" | Axis.z => "Z"
    | Axis.a => "A" | Axis.b => "B" | Axis.c => "C"
    | Axis.u => "U" | Axis.v => "V" | Axis.w => "W"
  nameOf plane_axes.1 ++ nameOf plane_axes.2

/-- The motion tail of GCodeHandlers._handle_arc_motion (after the
feed-rate checks). -/
def handleArcMotionTail (μ : MathOracle) (blk : Block) (direction : String)
    (ms : MachineState) (g : GeomState) (errs : List GCodeError) :
    Bool × MachineState × GeomState × List GCodeError :=
  if ¬ blk.has_axis_words then (true, ms, g, errs)
  else
    let plane_axes := ms.get_current_plane
    let plane_name := planeName plane_axes
    let target_position := calculate_target_position blk ms
    let abs_position := ms.calculate_absolute_position target_position
    let center_position := calculate_arc_center blk ms plane_axes
    let start_pos := ms.current_position.to_list
    let end_pos := abs_position.to_list
    let center_pos := center_position.to_list
    let (g, _) := g.add_arc_move μ start_pos end_pos center_pos blk.line_number
      direction plane_name (some ms.feed_rate)
    let ms := ms.update_position abs_position
    (true, ms, g, errs)

/-- GCodeHandlers._handle_arc_motion (G2 ⇒ direction "CW", G3 ⇒ "CCW"):
the same feed-rate gate as G1, then the arc is emitted through the
geometry manager and the position committed. -/
def handle_arc_motion (μ : MathOracle) (blk : Block) (direction : String)
    (ms : MachineState) (g : GeomState) (errs : List GCodeError) :
    Bool × MachineState × GeomState × List GCodeError :=
  let g_code : ℚ := if direction = "CW" then 2 else 3
  let ms := ms.update_modal_group ModalKey.motion g_code
  match blk.f with
  | some fval =>
    if fval ≤ 0 then
      (false, ms, g,
       add_error errs blk.line_number 0 0 "Feed rate must be positive for G2/G3"
         ErrorType.SEMANTIC)
    else
      handleArcMotionTail μ blk direction { ms with feed_rate := fval } g errs
  | none =>
    if ms.feed_rate ≤ 0 then
      (false, ms, g,
       add_error errs blk.line_number 0 0 "No feed rate specified for G2/G3 move"
         ErrorType.SEMANTIC)
    else
      handleArcMotionTail μ blk direction ms g errs

/-- GCodeHandlers.handle_g4_dwell. -/
def handle_g4 (blk : Block) (ms : MachineState) (g : GeomState)
    (errs : List GCodeError) : Bool × MachineState × GeomState × List GCodeError :=
  match blk.p with
  | none =>
    (false, ms, g,
     add_error errs blk.line_number 0 0 "G4 requires positive P value (seconds)"
       ErrorType.SEMANTIC)
  | some pv =>
    if pv < 0 then
      (false, ms, g,
       add_error errs blk.line_number 0 0 "G4 requires positive P value (seconds)"
         ErrorType.SEMANTIC)
    else (true, ms, g, errs)

/-- GCodeHandlers.handle_g28_return_home. -/
def handle_g28 (μ : MathOracle) (blk : Block) (ms : MachineState) (g : GeomState)
    (errs : List GCodeError) : Bool × MachineState × GeomState × List GCodeError :=
  let home_position : Position := {}
  let abs_position := ms.calculate_absolute_position home_position
  let start_pos := ms.current_position.to_list
  let end_pos := abs_position.to_list
  let (g, _) := g.add_linear_move μ start_pos end_pos blk.line_number MoveType.RAPID
  let ms := ms.update_position abs_position
  (true, ms, g, errs)

/-- GCodeHandlers.handle_g92_coordinate_system_offset: per present axis,
offset = current position − specified value; no motion. -/
def handle_g92 (blk : Block) (ms : MachineState) (g : GeomState)
    (errs : List GCodeError) : Bool × MachineState × GeomState × List GCodeError :=
  if ¬ blk.has_axis_words then
    (false, ms, g,
     add_error errs blk.line_number 0 0 "G92 requires at least one axis word"
       ErrorType.SEMANTIC)
  else
    let ms := axisList.foldl
      (fun ms ax =>
        match blk.axisValue ax with
        | some specified_value =>
          ms.set_g92_offset ax (ms.current_position.get_axis ax - specified_value)
        | none => ms)
      ms
    (true, ms, g, errs)

/-- GCodeHandlers.execute_g_code: dispatch through the handler table;
codes outside the table yield an Unsupported SEMANTIC diagnostic (the
handlers themselves raise no exceptions on this model's inputs, so the
RUNTIME except path is not represented). -/
def execute_g_code (μ : MathOracle) (gnum : ℚ) (blk : Block) (ms : MachineState)
    (g : GeomState) (errs : List GCodeError) :
    Bool × MachineState × GeomState × List GCodeError :=
  if gnum = 0 then handle_g0 μ blk ms g errs
  else if gnum = 1 then handle_g1 μ blk ms g errs
  else if gnum = 2 then handle_arc_motion μ blk "CW" ms g errs
  else if gnum = 3 then handle_arc_motion μ blk "CCW" ms g errs
  else if gnum = 4 then handle_g4 blk ms g errs
  else if gnum = 10 then
    (false, ms, g,
     add_error errs blk.line_number 0 0 "G10 not yet implemented" ErrorType.SEMANTIC)
  else if gnum = 17 then (true, ms.update_modal_group ModalKey.plane 17, g, errs)
  else if gnum = 18 then (true, ms.update_modal_group ModalKey.plane 18, g, errs)
  else if gnum = 19 then (true, ms.update_modal_group ModalKey.plane 19, g, errs)
  else if gnum = 20 then (true, ms.update_modal_group ModalKey.units 20, g, errs)
  else if gnum = 21 then (true, ms.update_modal_group ModalKey.units 21, g, errs)
  else if gnum = 28 then handle_g28 μ blk ms g errs
  else if gnum = 90 then (true, ms.update_modal_group ModalKey.distance 90, g, errs)
  else if gnum = 91 then (true, ms.update_modal_group ModalKey.distance 91, g, errs)
  else if gnum = 92 then handle_g92 blk ms g errs
  else
    (false, ms, g,
     add_error errs blk.line_number 0 0 "Unsupported G-code" ErrorType.SEMANTIC)

/- ===================== src/handlers/m_codes.py ===================== -/

/-- The current_modals dict of MCodeHandlers. -/
structure MCodeModals where
  spindle : ℚ := 5
  coolant : ℚ := 9
  override : ℚ := 48
deriving DecidableEq, Repr

/-- MCodeHandlers._update_modal_groups: non-stopping groups track the last
executed member code. -/
def update_m_modal_groups (m : ℚ) (st : MCodeModals) : MCodeModals :=
  let st := if m ∈ ([3, 4, 5] : List ℚ) then { st with spindle := m } else st
  let st := if m ∈ ([7, 8, 9] : List ℚ) then { st with coolant := m } else st
  if m ∈ ([48, 49, 50, 51, 52, 53] : List ℚ) then { st with override := m } else st

/-- The handler table of MCodeHandlers (prints are no-ops here).  Returns
none when the M-code has no handler entry. -/
def m_handler (m : ℚ) (blk : Block) (ms : MachineState) (errs : List GCodeError)
    (modals : MCodeModals) :
    Option (Bool × MachineState × List GCodeError × MCodeModals) :=
  if m = 0 ∨ m = 1 ∨ m = 60 then some (true, ms, errs, modals)
  else if m = 2 ∨ m = 30 then
    some (true, ms, errs, { modals with spindle := 5, coolant := 9 })
  else if m = 3 ∨ m = 4 then
    let ms := match blk.s with
      | some sv => { ms with spindle_speed := sv }
      | none => ms
    if ms.spindle_speed ≤ 0 then
      some (false, ms,
        add_error errs blk.line_number 0 0 "Spindle speed must be set before M3/M4"
          ErrorType.SEMANTIC, modals)
    else some (true, ms, errs, modals)
  else if m = 5 then some (true, ms, errs, modals)
  else if m = 6 then
    let ms := match blk.t with
      | some tv => { ms with current_tool := tv }
      | none => ms
    some (true, ms, errs, modals)
  else if m = 61 then
    match blk.q with
    | some qv => some (true, { ms with current_tool := pyInt qv }, errs, modals)
    | none =>
      some (false, ms,
        add_error errs blk.line_number 0 0 "M61 requires Q parameter for tool number"
          ErrorType.SEMANTIC, modals)
  else if m = 7 ∨ m = 8 ∨ m = 9 then some (true, ms, errs, modals)
  else if m = 48 ∨ m = 49 ∨ m = 50 ∨ m = 51 ∨ m = 52 ∨ m = 53 then
    some (true, ms, errs, modals)
  else none

/-- MCodeHandlers.execute_m_code: table handlers run and then always
update the modal groups; M100–M199 with no registered custom handler is a
SEMANTIC warning that continues; anything else is Unsupported SEMANTIC. -/
def execute_m_code (m : ℚ) (blk : Block) (ms : MachineState)
    (errs : List GCodeError) (modals : MCodeModals) :
    Bool × MachineState × List GCodeError × MCodeModals :=
  match m_handler m blk ms errs modals with
  | some (ok, ms, errs, modals) => (ok, ms, errs, update_m_modal_groups m modals)
  | none =>
    if 100 ≤ m ∧ m ≤ 199 then
      (true, ms,
       add_error errs blk.line_number 0 0 "Custom M-code not implemented"
         ErrorType.SEMANTIC ErrorSeverity.WARNING, modals)
    else
      (false, ms,
       add_error errs blk.line_number 0 0 "Unsupported M-code" ErrorType.SEMANTIC,
       modals)

/- ===================== src/core/interpreter.py ===================== -/

/-- Stable insertion sort on rationals (Python sorted on the code keys). -/
def insertSortedQ (v : ℚ) : List ℚ → List ℚ
  | [] => [v]
  | x :: xs => if v < x then v :: x :: xs else x :: insertSortedQ v xs

/-- Python sorted(...) over the numeric code keys. -/
def sortedQ (l : List ℚ) : List ℚ := l.foldl (fun acc v => insertSortedQ v acc) []

/-- GCodeInterpreter state.  machine_state is the interpreter's own
attribute, rebound to a fresh MachineState at the start of every
process_gcode call.  handlers_machine_state is the MachineState instance
captured by GCodeHandlers and MCodeHandlers at construction time: the
rebinding in process_gcode does not touch it, so it persists across runs
(both fields denote the same object until the first process call rebinds
the attribute; no code runs before that rebinding). -/
structure Interp where
  error_collector : List GCodeError := []
  machine_state : MachineState := {}
  handlers_machine_state : MachineState := {}
  geom : GeomState := {}
  varman : VarManager := {}
  mcode_modals : MCodeModals := {}
  oword : OWordState := {}
  current_gcode_text : String := ""
  tokens : List Token := []
  blocks : List Block := []
  execution_line : Nat := 0

/-- Step 6 of GCodeInterpreter._execute_block: the M-codes of the block in
ascending numeric order, stopping at the first failing handler. -/
def runMCodes (blk : Block) : List ℚ → Interp → Bool × Interp
  | [], it => (true, it)
  | m :: rest, it =>
    let (ok, hms, errs, modals) :=
      execute_m_code m blk it.handlers_machine_state it.error_collector it.mcode_modals
    let it := { it with handlers_machine_state := hms, error_collector := errs,
                        mcode_modals := modals }
    if ok then runMCodes blk rest it else (false, it)

/-- Step 7 of GCodeInterpreter._execute_block: the G-codes of the block in
ascending numeric order, stopping at the first failing handler. -/
def runGCodes (μ : MathOracle) (blk : Block) : List ℚ → Interp → Bool × Interp
  | [], it => (true, it)
  | gc :: rest, it =>
    let (ok, hms, geom, errs) :=
      execute_g_code μ gc blk it.handlers_machine_state it.geom it.error_collector
    let it := { it with handlers_machine_state := hms, geom := geom,
                        error_collector := errs }
    if ok then runGCodes μ blk rest it else (false, it)

/-- GCodeInterpreter._execute_block: comments (display only), feed-rate
mode, F, S and T updates on the interpreter's machine_state attribute,
then M-codes and G-codes in ascending order (the handlers mutate the
machine state they captured at construction). -/
def execute_block (μ : MathOracle) (it : Interp) (blk : Block) : Bool × Interp :=
  let ms := it.machine_state
  let ms :=
    if (93 : ℚ) ∈ blk.g_codes then ms.update_modal_group ModalKey.feed_rate_mode 93
    else if (94 : ℚ) ∈ blk.g_codes then ms.update_modal_group ModalKey.feed_rate_mode 94
    else if (95 : ℚ) ∈ blk.g_codes then ms.update_modal_group ModalKey.feed_rate_mode 95
    else ms
  let ms := match blk.f with | some fv => { ms with feed_rate := fv } | none => ms
  let ms := match blk.s with | some sv => { ms with spindle_speed := sv } | none => ms
  let ms := match blk.t with | some tv => { ms with current_tool := tv } | none => ms
  let it := { it with machine_state := ms }
  let (okM, it) := runMCodes blk (sortedQ blk.m_codes) it
  if ¬ okM then (false, it)
  else
    let (okG, it) := runGCodes μ blk (sortedQ blk.g_codes) it
    if ¬ okG then (false, it) else (true, it)

/-- GCodeInterpreter._execute_blocks: program-counter loop over the parsed
blocks with O-word control flow.  The fuel bounds the number of loop
iterations (the Python loop need not terminate in general); the theorems
instantiate a sufficient fuel for their concrete programs. -/
def runBlocks (μ : MathOracle) (ev : EvalFn) : Nat → Interp → Bool × Interp
  | 0, it => (true, it)
  | Nat.succ fuel, it =>
    if h : it.execution_line < it.blocks.length then
      let blk := it.blocks.get ⟨it.execution_line, h⟩
      let (it, next_line) :=
        match truthyStr blk.o_word with
        | some _ =>
          let (nl, ow, vm, errs) :=
            execute_o_word ev it.oword it.varman it.execution_line it.error_collector
          ({ it with oword := ow, varman := vm, error_collector := errs }, nl)
        | none => (it, none)
      match next_line with
      | some nl => runBlocks μ ev fuel { it with execution_line := nl }
      | none =>
        -- _process_variable_assignments is a placeholder returning True
        let (ok, it) := execute_block μ it blk
        if ¬ ok ∧ has_fatal_errors it.error_collector then (false, it)
        else runBlocks μ ev fuel { it with execution_line := it.execution_line + 1 }
    else (true, it)

/-- GCodeInterpreter.process_gcode: clear the collector and geometry,
rebind machine_state to a fresh instance (the handlers keep the instance
they captured at construction), clear the user variables, then tokenize,
parse, preprocess O-words and execute. -/
def process_gcode (μ : MathOracle) (ev : EvalFn) (fuel : Nat) (it : Interp)
    (gcode_text : String) : Interp × Bool :=
  let it := { it with current_gcode_text := gcode_text, error_collector := [],
                      geom := {}, machine_state := {},
                      varman := it.varman.clear_user_variables }
  let (tokens, errs) := tokenize gcode_text it.error_collector
  let it := { it with tokens := tokens, error_collector := errs }
  if has_fatal_errors it.error_collector then (it, false)
  else
    let (blocks, errs) := parser_parse it.tokens it.error_collector
    let it := { it with blocks := blocks, error_collector := errs }
    if has_fatal_errors it.error_collector then (it, false)
    else
      let (ok, ow, errs) :=
        preprocess_program ev it.varman it.oword it.blocks it.error_collector
      let it := { it with oword := ow, error_collector := errs }
      if ¬ ok then (it, false)
      else
        let (success, it) := runBlocks μ ev fuel { it with execution_line := 0 }
        (it, success ∧ ¬ has_fatal_errors it.error_collector)

/-- GCodeInterpreter.validate_syntax_only: lex and parse with a temporary
collector, then REPLACE the main collector's errors with a copy of the
temporary collector's; returns whether the temporary collector is free of
errors. -/
def validate_syntax_only (it : Interp) (gcode_text : String) : Interp × Bool :=
  let lexed := tokenize gcode_text []
  let parsed := parser_parse lexed.1 lexed.2
  ({ it with error_collector := parsed.2 }, ¬ has_errors parsed.2)

/- ===================== concrete instances used by the theorems ===================== -/

/-- An expression evaluator that always fails (no expression is ever
consulted on the straight-line inputs below). -/
def evNone : EvalFn := fun _ _ _ => none

/-- An expression evaluator returning 1.0 (a true while guard). -/
def evOne : EvalFn := fun _ _ _ => some 1

/-- Oracle agreeing with the real square root at the only point the C1
inputs sample it: sqrt 100 = 10. -/
def c1Oracle : MathOracle := { zeroOracle with sqrt := fun _ => 10 }

/-- Oracle agreeing with the real square root at the only point the C8
inputs sample it: sqrt 25 = 5. -/
def c8Oracle : MathOracle := { zeroOracle with sqrt := fun _ => 5 }

/-- The program `O10 while [1] / G1 / O10 break / O10 endwhile` at lines
0–3, as block records (line_number equals the list index so that
_get_command_text finds each command's own line). -/
def c2Blocks : List Block :=
  [{ line_number := 0, o_word := some "O10 while [1]" },
   { line_number := 1 },
   { line_number := 2, o_word := some "O10 break" },
   { line_number := 3, o_word := some "O10 endwhile" }]

/-- The O-word processor state after preprocessing c2Blocks. -/
def c2St0 : OWordState := (preprocess_program evOne {} {} c2Blocks []).2.1

/-- The state after the while guard at line 0 evaluated true (the loop
context is pushed). -/
def c2St1 : OWordState := (execute_o_word evOne c2St0 {} 0 []).2.1

/-- An arc geometry segment (for the bounding-box divergence). -/
def arcSegC10 : GeometrySegment :=
  { segment_id := 0, line_number := 1, move_type := MoveType.ARC_CW,
    start_point := ⟨0, 0, 0⟩, end_point := ⟨10, 0, 0⟩,
    center_point := some ⟨5, 0, 0⟩, radius := some 5 }

/-- A linear geometry segment (for the bounding-box base case). -/
def linSegC10 : GeometrySegment :=
  { segment_id := 0, line_number := 1, move_type := MoveType.FEED,
    start_point := ⟨3, -1, 2⟩, end_point := ⟨1, 4, 0⟩ }

/-- A G1 block carrying a non-positive F word and an axis word. -/
def c7Block : Block :=
  { line_number := 1, g_codes := [1], x := some 1, f := some (-5) }

/-- A machine state with a positive inherited modal feed rate. -/
def c7MS : MachineState := { feed_rate := 100 }

/-- A G1 block carrying a positive F word and an axis word (witness). -/
def c7BlockOk : Block :=
  { line_number := 1, g_codes := [1], x := some 1, f := some 100 }

/-- An O-word state with one defined subroutine O200 at lines 5–7,
program counter at the call line 10 (witness for the call/return
behavior). -/
def c6St : OWordState :=
  { subroutines := [(OLabel.num 200, ⟨OLabel.num 200, 5, 7, 0, []⟩)],
    current_line := 10 }

/-- The call command `O200 call [5]` at line 10. -/
def c6Call : OWordCommand :=
  { type := OWordType.CALL, label := OLabel.num 200, arguments := [5],
    line_number := 10 }

/-- A plain return command inside the subroutine. -/
def c6Ret : OWordCommand :=
  { type := OWordType.RETURN, label := OLabel.num 200, line_number := 6 }

/-- The block parsed from the line `G2 X10 Y0 I5 J0 F100`. -/
def c8Block : Block :=
  ((parser_parse (tokenize "G2 X10 Y0 I5 J0 F100" []).1 []).1).headD
    { line_number := 0 }

/- ===================== theorems ===================== -/

/-- C4 (amended): calculate_absolute_position returns, on every axis —
including Z — exactly relative + active-coordinate-system offset + G92
offset; no tool-length term is applied on any axis (MachineState stores
no tool-length offset). -/
theorem c4_absolute_position_offsets (s : MachineState) (rel : Position) (ax : Axis) :
    (s.calculate_absolute_position rel).get_axis ax =
      rel.get_axis ax + s.get_active_coordinate_system.get_offset ax +
        s.g92_offset.get_offset ax := by
  cases ax <;> rfl

/-- C4 counterexample: with the default machine state, origin as relative
position and a tool-length offset of 1, the source function differs from
the spec's Z-augmented computation — no tool-length offset is ever added
on Z. -/
theorem c4_counterexample :
    MachineState.calculate_absolute_position {} {} ≠
      calculate_absolute_position_spec {} 1 {} := by
  with_unfolding_all decide

/-- C1 (amended): whenever the half chord exceeds |R|,
calculate_arc_data_r silently returns the chord midpoint as the center
(turn 1 for G3, −1 for G2); the function has no diagnostics channel, so
no SEMANTIC error accompanies the fallback. -/
theorem c1_midpoint_fallback (μ : MathOracle) (move x1 y1 x2 y2 radius : ℚ)
    (h : μ.sqrt ((x2 - x1) ^ 2 + (y2 - y1) ^ 2) / 2 > |radius|) :
    calculate_arc_data_r μ move x1 y1 x2 y2 radius =
      ((chordMidpoint x1 y1 x2 y2).1, (chordMidpoint x1 y1 x2 y2).2,
        if move = 30 then 1 else -1) := by
  unfold calculate_arc_data_r chordMidpoint
  rw [if_pos h]

/-- C1 witness: for the impossible arc from (0,0) to (10,0) with R = 1
(half chord 5 > 1) the fallback fires. -/
theorem c1_witness :
    c1Oracle.sqrt ((10 - 0) ^ 2 + (0 - 0) ^ 2) / 2 > |(1 : ℚ)| ∧
    calculate_arc_data_r c1Oracle 20 0 0 10 0 1 =
      ((chordMidpoint 0 0 10 0).1, (chordMidpoint 0 0 10 0).2,
        if (20 : ℚ) = 30 then 1 else -1) :=
  ⟨by with_unfolding_all decide,
   c1_midpoint_fallback c1Oracle 20 0 0 10 0 1 (by with_unfolding_all decide)⟩

/-- C1 counterexample: at the geometrically impossible input (half chord
5 > |R| = 1) calculate_arc_data_r returns exactly the chord midpoint
(5, 0) as the center — refuting that a SEMANTIC diagnostic is reported
and that the chord midpoint is never substituted. -/
theorem c1_counterexample :
    c1Oracle.sqrt ((10 - 0) ^ 2 + (0 - 0) ^ 2) / 2 > |(1 : ℚ)| ∧
    calculate_arc_data_r c1Oracle 20 0 0 10 0 1 =
      ((chordMidpoint 0 0 10 0).1, (chordMidpoint 0 0 10 0).2, -1) := by
  with_unfolding_all decide

/-- C10: the linear branch of GeometrySegment.get_bounding_box returns
the componentwise min/max of the endpoints at any positive fuel, but the
arc branch re-enters itself on the unchanged segment and never returns
(none at every fuel) — the source raises RecursionError on every arc
segment. -/
theorem c10_bbox_behavior (seg : GeometrySegment) (fuel : Nat) :
    ((seg.move_type = MoveType.RAPID ∨ seg.move_type = MoveType.FEED) →
      seg.get_bounding_box (fuel + 1) =
        some
          (⟨min seg.start_point.x seg.end_point.x,
            min seg.start_point.y seg.end_point.y,
            min seg.start_point.z seg.end_point.z⟩,
           ⟨max seg.start_point.x seg.end_point.x,
            max seg.start_point.y seg.end_point.y,
            max seg.start_point.z seg.end_point.z⟩)) ∧
    ((seg.move_type = MoveType.ARC_CW ∨ seg.move_type = MoveType.ARC_CCW) →
      seg.get_bounding_box fuel = none) := by
  constructor
  · intro h
    simp [GeometrySegment.get_bounding_box, h]
  · intro h
    have hne : ¬ (seg.move_type = MoveType.RAPID ∨ seg.move_type = MoveType.FEED) := by
      rcases h with h | h <;> simp [h]
    induction fuel with
    | zero => rfl
    | succ n ih => simp [GeometrySegment.get_bounding_box, hne, ih]

/-- C10 witness: a concrete linear segment yields its endpoint min/max at
fuel 1; a concrete arc segment yields none even at fuel 5. -/
theorem c10_witness :
    linSegC10.get_bounding_box (0 + 1) = some (⟨1, -1, 0⟩, ⟨3, 4, 2⟩) ∧
    arcSegC10.get_bounding_box 5 = none :=
  ⟨by rw [(c10_bbox_behavior linSegC10 0).1 (Or.inr rfl)]; with_unfolding_all decide,
   (c10_bbox_behavior arcSegC10 5).2 (Or.inl rfl)⟩

/-- C2: after `O10 while [1]` at line 0 pushes its loop context, the
recorded end_line is 0 (the stub _find_matching_endwhile returned 1), so
`O10 break` at line 2 truncates the loop stack but jumps to line 1 — back
into the loop body — although the matching `O10 endwhile` is at line 3
and the claim requires a jump to line 4. -/
theorem c2_break_stubbed_jump :
    (execute_o_word evOne c2St0 {} 0 []).1 = none ∧
    c2St1.loop_stack.map (fun ctx => ctx.end_line) = [0] ∧
    (execute_o_word evOne c2St1 {} 2 []).1 = some 1 ∧
    (execute_o_word evOne c2St1 {} 2 []).2.1.loop_stack = [] ∧
    find_matching_endwhile_spec c2Blocks (OLabel.num 10) 0 = some 3 := by
  with_unfolding_all decide

/-- C9: running process_gcode twice on the same single-line program
`G1 X10 F100` from a fresh interpreter yields different geometry: the
first run's segment starts at the origin, the second run's at (10,0,0),
because the handlers mutate the MachineState instance they captured at
construction while process_gcode only rebinds the interpreter's own
machine_state attribute.  (The oracle and expression evaluator are never
consulted on this input.) -/
theorem c9_process_not_idempotent :
    ((process_gcode zeroOracle evNone 10 {} "G1 X10 F100").1.geom.segments.map
        (fun s => (s.start_point, s.end_point)) =
      [(⟨0, 0, 0⟩, ⟨10, 0, 0⟩)]) ∧
    ((process_gcode zeroOracle evNone 10
          (process_gcode zeroOracle evNone 10 {} "G1 X10 F100").1
          "G1 X10 F100").1.geom.segments.map
        (fun s => (s.start_point, s.end_point)) =
      [(⟨10, 0, 0⟩, ⟨10, 0, 0⟩)]) := by
  with_unfolding_all decide

/-- C5 (amended): validate_syntax_only lexes and parses with an isolated
collector and executes nothing — every interpreter field except the error
collector is returned unchanged — but it then REPLACES the main
collector's contents with the temporary collector's lex+parse
diagnostics, so the previous run's history survives only when it happens
to equal them. -/
theorem c5_validate_replaces_history (it : Interp) (text : String) :
    (validate_syntax_only it text).1 =
      { it with
          error_collector :=
            (parser_parse (tokenize text []).1 (tokenize text []).2).2 } := rfl

/-- C5 counterexample: a full run of `G90 G91 X1` leaves one SEMANTIC
diagnostic in the main collector; a subsequent syntax-only validation of
the empty text wipes it — the collector's contents before and after are
not equal. -/
theorem c5_counterexample :
    (process_gcode zeroOracle evNone 10 {} "G90 G91 X1").1.error_collector =
      [⟨1, 0, 7, "Multiple codes from distance modal group",
        ErrorType.SEMANTIC, ErrorSeverity.ERROR⟩] ∧
    (validate_syntax_only (process_gcode zeroOracle evNone 10 {} "G90 G91 X1").1
        "").1.error_collector = [] := by
  with_unfolding_all decide

/-- C8 counterexample: processing the single line `G2 X10 Y0 I5 J0` from
the initial machine state (default modal state, feed rate 0) produces NO
arc command at all: the arc handler rejects the block with a SEMANTIC
feed-rate diagnostic. -/
theorem c8_counterexample :
    (process_gcode zeroOracle evNone 10 {} "G2 X10 Y0 I5 J0").1.geom.segments = [] ∧
    (process_gcode zeroOracle evNone 10 {} "G2 X10 Y0 I5 J0").1.error_collector =
      [⟨1, 0, 0, "No feed rate specified for G2/G3 move",
        ErrorType.SEMANTIC, ErrorSeverity.ERROR⟩] := by
  with_unfolding_all decide

/-- C8 (amended): with a positive feed rate supplied (F100 on the block,
everything else at the initial machine state), the G2 arc handler
produces exactly one clockwise arc command with center (5, 0) exactly and
radius 5 (the radius samples the square root only at 25). -/
theorem c8_arc_center_radius (μ : MathOracle) (h : μ.sqrt 25 = 5) :
    (handle_arc_motion μ c8Block "CW" {} {} []).1 = true ∧
    (handle_arc_motion μ c8Block "CW" {} {} []).2.2.1.segments.map
        (fun s => (s.move_type, s.center_point, s.radius)) =
      [(MoveType.ARC_CW, some ⟨5, 0, 0⟩, some 5)] := by
  constructor
  · with_unfolding_all rfl
  · have e1 : (handle_arc_motion μ c8Block "CW" {} {} []).2.2.1.segments.map
        (fun s => (s.move_type, s.center_point, s.radius)) =
      [(MoveType.ARC_CW, some ⟨5, 0, 0⟩, some ((μ.sqrt 25 + μ.sqrt 25) / 2))] := by
      with_unfolding_all rfl
    rw [e1, h]
    norm_num

/-- C8 witness: the oracle returning the true square root at the sampled
point satisfies the hypothesis and yields the arc. -/
theorem c8_witness :
    c8Oracle.sqrt 25 = 5 ∧
    (handle_arc_motion c8Oracle c8Block "CW" {} {} []).2.2.1.segments.map
        (fun s => (s.move_type, s.center_point, s.radius)) =
      [(MoveType.ARC_CW, some ⟨5, 0, 0⟩, some 5)] :=
  ⟨rfl, (c8_arc_center_radius c8Oracle rfl).2⟩

/-- The validity flag of one modal-scan step: false when the group has
more than one active code, otherwise the incoming flag. -/
theorem modalScanStep_fst (blk : Block) (acc : Bool × List GCodeError)
    (grp : String × List ℚ) :
    (modalScanStep blk acc grp).1 =
      if 1 < (blk.g_codes.filter (fun g => g ∈ grp.2)).length then false
      else acc.1 := by
  unfold modalScanStep
  by_cases hlen : 1 < (blk.g_codes.filter (fun g => g ∈ grp.2)).length
  · simp only [gt_iff_lt, hlen, if_true]
    split <;> rfl
  · simp only [gt_iff_lt, hlen, if_false]

/-- The validity flag of the modal scan depends only on the incoming
flag, not on the accumulated diagnostics. -/
theorem scan_foldl_fst (blk : Block) :
    ∀ (gs : List (String × List ℚ)) (a1 a2 : Bool × List GCodeError),
      a1.1 = a2.1 →
      (gs.foldl (modalScanStep blk) a1).1 = (gs.foldl (modalScanStep blk) a2).1 := by
  intro gs
  induction gs with
  | nil => intro a1 a2 h; simpa using h
  | cons g gs ih =>
    intro a1 a2 h
    simp only [List.foldl_cons]
    exact ih _ _ (by rw [modalScanStep_fst, modalScanStep_fst, h])

/-- A false validity flag is preserved by the modal scan. -/
theorem scan_foldl_false (blk : Block) :
    ∀ (gs : List (String × List ℚ)) (a : Bool × List GCodeError),
      a.1 = false → (gs.foldl (modalScanStep blk) a).1 = false := by
  intro gs
  induction gs with
  | nil => intro a h; simpa using h
  | cons g gs ih =>
    intro a h
    simp only [List.foldl_cons]
    exact ih _ (by rw [modalScanStep_fst, h]; split <;> rfl)

/-- A modal group with more than one active code forces the scan's flag
to false. -/
theorem scan_foldl_conflict (blk : Block) :
    ∀ (gs : List (String × List ℚ)) (a : Bool × List GCodeError),
      (∃ grp ∈ gs, 1 < (blk.g_codes.filter (fun g => g ∈ grp.2)).length) →
      (gs.foldl (modalScanStep blk) a).1 = false := by
  intro gs
  induction gs with
  | nil => intro a h; rcases h with ⟨grp, hmem, _⟩; cases hmem
  | cons g gs ih =>
    intro a h
    rcases h with ⟨grp, hmem, hlen⟩
    simp only [List.foldl_cons]
    rcases List.mem_cons.mp hmem with hg | hg
    · subst hg
      exact scan_foldl_false blk gs _ (by rw [modalScanStep_fst]; simp [hlen])
    · exact ih _ ⟨grp, hg, hlen⟩

/-- The validity flag of _is_block_valid does not depend on the incoming
diagnostics list. -/
theorem is_block_valid_fst_indep (blk : Block) (e1 e2 : List GCodeError) :
    (is_block_valid blk e1).1 = (is_block_valid blk e2).1 := by
  unfold is_block_valid blockModalScan
  have hfst := scan_foldl_fst blk MODAL_GROUPS (true, e1) (true, e2) rfl
  dsimp only
  split
  · split
    · rfl
    · exact hfst
  · exact hfst

/-- A modal-group conflict makes _is_block_valid return false. -/
theorem is_block_valid_conflict_false (blk : Block) (errs : List GCodeError)
    (h : ∃ grp ∈ MODAL_GROUPS,
        1 < (blk.g_codes.filter (fun g => g ∈ grp.2)).length) :
    (is_block_valid blk errs).1 = false := by
  unfold is_block_valid blockModalScan
  have hs := scan_foldl_conflict blk MODAL_GROUPS (true, errs) h
  dsimp only
  split
  · split
    · rfl
    · exact hs
  · exact hs

/-- Every block the parse loop returns passed the validity check. -/
theorem parseLoop_sound :
    ∀ (tokens : List Token) (cur : Option Block) (blocks : List Block)
      (errs : List GCodeError),
      (∀ b ∈ blocks, (is_block_valid b []).1 = true) →
      ∀ b ∈ (parseLoop tokens cur blocks errs).1, (is_block_valid b []).1 = true := by
  intro tokens
  induction tokens with
  | nil =>
    intro cur blocks errs h b hb
    simp only [parseLoop] at hb
    exact h b hb
  | cons t rest ih =>
    intro cur blocks errs h b hb
    by_cases hN : t.type = TokenType.NEWLINE
    · rw [parseLoop.eq_def] at hb
      simp only [hN, if_true] at hb
      cases cur with
      | none => exact ih none blocks errs h b hb
      | some blk =>
        refine ih none _ _ ?_ b hb
        intro b' hb'
        by_cases hv : (is_block_valid blk errs).1 = true
        · simp only [hv, if_true] at hb'
          rcases List.mem_append.mp hb' with hb'' | hb''
          · exact h b' hb''
          · rcases List.mem_singleton.mp hb'' with rfl
            rw [is_block_valid_fst_indep b' [] errs]
            exact hv
        · simp only [Bool.not_eq_true] at hv
          simp only [hv, Bool.false_eq_true, if_false] at hb'
          exact h b' hb'
    · by_cases hE : t.type = TokenType.EOF
      · rw [parseLoop.eq_def] at hb
        simp only [hN, hE, if_true, if_false] at hb
        cases cur with
        | none => exact h b hb
        | some blk =>
          by_cases hv : (is_block_valid blk errs).1 = true
          · simp only [hv, if_true] at hb
            rcases List.mem_append.mp hb with hb'' | hb''
            · exact h b hb''
            · rcases List.mem_singleton.mp hb'' with rfl
              rw [is_block_valid_fst_indep b [] errs]
              exact hv
          · simp only [Bool.not_eq_true] at hv
            simp only [hv, Bool.false_eq_true, if_false] at hb
            exact h b hb
      · rw [parseLoop.eq_def] at hb
        simp only [hN, hE, if_false] at hb
        exact ih _ blocks errs h b hb

/-- C3 (amended): a block violating modal-group exclusivity fails the
validity check, every block in parse's returned list passed it (so the
offending block is dropped from the list, hence from execution), and the
concrete conflicting line `G90 G91 X1` leaves exactly one SEMANTIC
diagnostic. -/
theorem c3_invalid_blocks_dropped :
    (∀ (tokens : List Token) (errs0 : List GCodeError) (b : Block),
        b ∈ (parser_parse tokens errs0).1 → (is_block_valid b []).1 = true) ∧
    (∀ (blk : Block) (errs : List GCodeError),
        (∃ grp ∈ MODAL_GROUPS,
            1 < (blk.g_codes.filter (fun g => g ∈ grp.2)).length) →
        (is_block_valid blk errs).1 = false) ∧
    ((parser_parse (tokenize "G90 G91 X1" []).1 []).2.map (fun e => e.error_type) =
      [ErrorType.SEMANTIC]) := by
  refine ⟨?_, ?_, ?_⟩
  · intro tokens errs0 b hb
    exact parseLoop_sound tokens none [] errs0 (by intro b' hb'; cases hb') b hb
  · intro blk errs h
    exact is_block_valid_conflict_false blk errs h
  · with_unfolding_all decide

/-- C3 witness: a block carrying both G90 and G91 (the distance group)
fails the validity check. -/
theorem c3_witness :
    (is_block_valid { line_number := 1, g_codes := [90, 91] } []).1 = false :=
  c3_invalid_blocks_dropped.2.1 { line_number := 1, g_codes := [90, 91] } []
    ⟨("distance", [90, 91]), by with_unfolding_all decide,
      by with_unfolding_all decide⟩

/-- C3 counterexample: parsing the line `G90 G91 X1` emits the SEMANTIC
modal-conflict diagnostic but returns an EMPTY block list — the violating
block is not present in the list returned by parse. -/
theorem c3_counterexample :
    parser_parse (tokenize "G90 G91 X1" []).1 [] =
      ([], [⟨1, 0, 7, "Multiple codes from distance modal group",
            ErrorType.SEMANTIC, ErrorSeverity.ERROR⟩]) := by
  with_unfolding_all decide

/-- Looking up the key just written by alist_set yields the new value. -/
theorem alist_get_set_self {α β : Type} [DecidableEq α] :
    ∀ (l : List (α × β)) (k : α) (v : β), alist_get (alist_set l k v) k = some v := by
  intro l k v
  induction l with
  | nil => simp [alist_set, alist_get, List.find?]
  | cons p l ih =>
    by_cases hp : p.1 = k
    · simp [alist_set, alist_get, List.find?, hp]
    · by_cases hf : (List.find? (fun q => decide (q.1 = k)) l).isSome
      · have h1 : alist_set (p :: l) k v = p :: alist_set l k v := by
          simp [alist_set, List.find?, hp, hf]
        rw [h1]
        simpa [alist_get, List.find?, hp] using ih
      · have h1 : alist_set (p :: l) k v = p :: alist_set l k v := by
          simp [alist_set, List.find?, hp, hf]
        rw [h1]
        simpa [alist_get, List.find?, hp] using ih

/-- The in-place-update half of alist_set does not disturb lookups at
other keys. -/
theorem alist_map_get_ne {α β : Type} [DecidableEq α]
    (l : List (α × β)) (k : α) (v : β) (k' : α) (hne : k' ≠ k) :
    alist_get (l.map (fun q => if q.1 = k then (k, v) else q)) k' =
      alist_get l k' := by
  induction l with
  | nil => rfl
  | cons p l ih =>
    simp only [List.map_cons]
    by_cases hp : p.1 = k
    · rw [if_pos hp]
      have h1 : ¬ ((k, v).1 = k') := fun hh => hne hh.symm
      have h2 : ¬ (p.1 = k') := by rw [hp]; exact fun hh => hne hh.symm
      simp only [alist_get, List.find?_cons, h1, h2, decide_eq_false]
      exact ih
    · rw [if_neg hp]
      by_cases hpk : p.1 = k'
      · simp [alist_get, List.find?_cons, hpk]
      · simp only [alist_get, List.find?_cons, hpk, decide_eq_false]
        exact ih

/-- alist_set does not disturb lookups at other keys. -/
theorem alist_get_set_ne {α β : Type} [DecidableEq α]
    (l : List (α × β)) (k k' : α) (v : β) (hne : k' ≠ k) :
    alist_get (alist_set l k v) k' = alist_get l k' := by
  unfold alist_set
  split
  · exact alist_map_get_ne l k v k' hne
  · unfold alist_get
    rw [List.find?_append]
    cases hfl : List.find? (fun p => decide (p.1 = k')) l with
    | some p => simp [hfl]
    | none =>
      have h1 : ¬ ((k, v).1 = k') := fun hh => hne hh.symm
      simp [hfl, List.find?_cons, h1]

/-- set_numbered_parameter never touches the system parameters. -/
theorem set_numbered_system (vm : VarManager) (n : Int) (v : ℚ) :
    (vm.set_numbered_parameter n v).1.system_parameters = vm.system_parameters := by
  unfold VarManager.set_numbered_parameter
  split <;> rfl

/-- The argument-binding fold of _execute_call never touches the system
parameters. -/
theorem bindfold_system (ps : List (Nat × ℚ)) :
    ∀ (vm : VarManager),
      (ps.foldl (fun vm p => (vm.set_numbered_parameter (p.1 : Int) p.2).1)
          vm).system_parameters = vm.system_parameters := by
  induction ps with
  | nil => intro vm; rfl
  | cons p ps ih =>
    intro vm
    rw [List.foldl_cons, ih]
    exact set_numbered_system vm p.1 p.2

/-- The argument-binding fold leaves numbered parameters below the start
index untouched. -/
theorem bindfold_get_preserve (args : List ℚ) :
    ∀ (start : Nat) (vm : VarManager) (k : Int), k < (start : Int) →
      alist_get
        (((args.enumFrom start).foldl
            (fun vm p => (vm.set_numbered_parameter (p.1 : Int) p.2).1)
            vm).numbered_parameters) k =
      alist_get vm.numbered_parameters k := by
  induction args with
  | nil => intro start vm k _; rfl
  | cons a args ih =>
    intro start vm k hk
    simp only [List.enumFrom_cons, List.foldl_cons]
    rw [ih (start + 1) _ k (by push_cast; omega)]
    unfold VarManager.set_numbered_parameter
    split
    · exact alist_get_set_ne _ _ _ _ (by omega)
    · rfl

/-- After the argument-binding fold of _execute_call, numbered parameter
start + i holds the i-th bound value (all keys stay in the writable
range 1..5399). -/
theorem bindfold_get_at (args : List ℚ) :
    ∀ (start : Nat) (vm : VarManager), 1 ≤ start → start + args.length ≤ 5400 →
      ∀ (i : Nat) (h : i < args.length),
        alist_get
          (((args.enumFrom start).foldl
              (fun vm p => (vm.set_numbered_parameter (p.1 : Int) p.2).1)
              vm).numbered_parameters) ((start + i : Nat) : Int) =
        some (args.get ⟨i, h⟩) := by
  induction args with
  | nil => intro start vm _ _ i h; cases h
  | cons a args ih =>
    intro start vm h1 h5400 i h
    simp only [List.enumFrom_cons, List.foldl_cons]
    cases i with
    | zero =>
      rw [bindfold_get_preserve args (start + 1) _ ((start + 0 : Nat) : Int)
        (by omega)]
      unfold VarManager.set_numbered_parameter
      rw [if_pos ⟨by exact_mod_cast h1, by simp only [List.length_cons] at h5400; omega⟩]
      simp only [Nat.add_zero]
      exact alist_get_set_self _ _ _
    | succ j =>
      have hj : j < args.length := by simpa [Nat.succ_lt_succ_iff] using h
      have := ih (start + 1) ((vm.set_numbered_parameter (start : Int) a).1)
        (by omega) (by simp only [List.length_cons] at h5400; omega) j hj
      have hkey : ((start + 1 + j : Nat) : Int) = ((start + (j + 1) : Nat) : Int) := by
        push_cast; omega
      rw [hkey] at this
      simpa using this

/-- Keys below 5070 are absent from any system-parameter table whose
keys are all at least 5070 (true of the source's table, whose smallest
key is 5070). -/
theorem system_lookup_small (l : List (Int × ℚ))
    (hsys : ∀ p ∈ l, (5070 : Int) ≤ p.1) (k : Int) (hk : k < 5070) :
    alist_get l k = none := by
  unfold alist_get
  rw [List.find?_eq_none.mpr]
  · rfl
  · intro p hp
    simp only [decide_eq_true_eq]
    intro hpk
    have := hsys p hp
    omega

/-- C6: calling a defined subroutine pushes a frame whose return line is
the call line + 1, binds the i-th positional argument to numbered
parameter #(i+1) so the body observes those values, and jumps to the line
after the subroutine header; the matching return pops that frame and
resumes at the line after the call; a return on an empty call stack adds
a RUNTIME diagnostic and produces no jump.  (The argument count is
bounded by 5069 because numbered parameters from 5070 up are shadowed by
the read-only system table, and the system-parameter keys all lie at or
above 5070, as in the source's table.) -/
theorem c6_call_and_return
    (st st2 : OWordState) (vm vm2 : VarManager) (ev : EvalFn) (label : OLabel)
    (args : List ℚ) (line : Nat) (sub : SubroutineDefinition)
    (retCmd : OWordCommand) (errs errs2 errs3 : List GCodeError)
    (hsub : alist_get st.subroutines label = some sub)
    (hargs : args.length ≤ 5069)
    (hsys : ∀ p ∈ vm.system_parameters, (5070 : Int) ≤ p.1) :
    (execute_call { st with current_line := line } vm
        { type := OWordType.CALL, label := label, arguments := args,
          line_number := line } errs).1 = some (sub.start_line + 1) ∧
    (execute_call { st with current_line := line } vm
        { type := OWordType.CALL, label := label, arguments := args,
          line_number := line } errs).2.1.call_stack =
      st.call_stack ++ [⟨label, line + 1, [], args⟩] ∧
    (∀ (i : Nat) (h : i < args.length),
      (execute_call { st with current_line := line } vm
          { type := OWordType.CALL, label := label, arguments := args,
            line_number := line } errs).2.2.1.get_numbered_parameter
          ((1 + i : Nat) : Int) = args.get ⟨i, h⟩) ∧
    (execute_return ev
        (execute_call { st with current_line := line } vm
          { type := OWordType.CALL, label := label, arguments := args,
            line_number := line } errs).2.1
        (execute_call { st with current_line := line } vm
          { type := OWordType.CALL, label := label, arguments := args,
            line_number := line } errs).2.2.1 retCmd errs2).1 = some (line + 1) ∧
    (execute_return ev
        (execute_call { st with current_line := line } vm
          { type := OWordType.CALL, label := label, arguments := args,
            line_number := line } errs).2.1
        (execute_call { st with current_line := line } vm
          { type := OWordType.CALL, label := label, arguments := args,
            line_number := line } errs).2.2.1 retCmd errs2).2.1.call_stack =
      st.call_stack ∧
    (st2.call_stack = [] →
      (execute_return ev st2 vm2 retCmd errs3).1 = none ∧
      (execute_return ev st2 vm2 retCmd errs3).2.2.2 =
        errs3 ++ [⟨retCmd.line_number, 0, 0, "Return outside of subroutine",
                   ErrorType.RUNTIME, ErrorSeverity.ERROR⟩]) := by
  have hsub' : alist_get ({ st with current_line := line } : OWordState).subroutines
      label = some sub := hsub
  refine ⟨?_, ?_, ?_, ?_, ?_, ?_⟩
  · unfold execute_call
    rw [hsub']
  · unfold execute_call
    rw [hsub']
  · intro i h
    unfold execute_call
    rw [hsub']
    dsimp only
    unfold VarManager.get_numbered_parameter
    rw [bindfold_system, system_lookup_small vm.system_parameters hsys _ (by push_cast; omega)]
    rw [bindfold_get_at args 1 vm (le_refl 1) (by omega) i h]
    rfl
  · unfold execute_call
    rw [hsub']
    dsimp only
    unfold execute_return
    rw [List.getLast?_concat]
  · unfold execute_call
    rw [hsub']
    dsimp only
    unfold execute_return
    rw [List.getLast?_concat]
    dsimp only
    rw [List.dropLast_concat]
  · intro hempty
    unfold execute_return
    rw [hempty]
    exact ⟨rfl, rfl⟩

/-- C6 witness: `O200 call [5]` at line 10 into the subroutine defined at
lines 5–7 jumps to line 6, pushes a frame returning to line 11, and binds
#1 = 5; the subsequent return resumes at line 11 with the stack empty
again; a return on an empty stack yields the RUNTIME diagnostic and no
jump. -/
theorem c6_witness :
    (execute_call { c6St with current_line := 10 } {}
        { type := OWordType.CALL, label := OLabel.num 200, arguments := [5],
          line_number := 10 } []).1 = some 6 ∧
    (execute_call { c6St with current_line := 10 } {}
        { type := OWordType.CALL, label := OLabel.num 200, arguments := [5],
          line_number := 10 } []).2.2.1.get_numbered_parameter ((1 + 0 : Nat) : Int) = 5 ∧
    (execute_return evNone ({} : OWordState) ({} : VarManager) c6Ret []).1 = none := by
  have H := c6_call_and_return c6St {} {} {} evNone (OLabel.num 200) [5] 10
    ⟨OLabel.num 200, 5, 7, 0, []⟩ c6Ret [] [] []
    (by with_unfolding_all decide) (by decide)
    (by with_unfolding_all decide)
  exact ⟨H.1, H.2.2.1 0 (by decide), (H.2.2.2.2.2 rfl).1⟩

/-- Segment bookkeeping of add_linear_move: exactly one segment is
appended, carrying the requested move type and feed rate. -/
theorem add_linear_move_segments_map (μ : MathOracle) (g : GeomState)
    (start «end» : List ℚ) (ln : Nat) (mt : MoveType) (fr : Option ℚ) :
    ((g.add_linear_move μ start «end» ln mt fr).1).segments.map
        (fun s => (s.move_type, s.feed_rate)) =
      g.segments.map (fun s => (s.move_type, s.feed_rate)) ++ [(mt, fr)] := by
  unfold GeomState.add_linear_move GeomState.add_line_mapping
    GeometrySegment.calculate_length
  dsimp only
  split
  · simp
  · split <;> simp

/-- Segment bookkeeping of add_arc_move: exactly one segment is appended,
carrying the direction-derived move type and the requested feed rate. -/
theorem add_arc_move_segments_map (μ : MathOracle) (g : GeomState)
    (start «end» center : List ℚ) (ln : Nat) (direction plane : String)
    (fr : Option ℚ) :
    ((g.add_arc_move μ start «end» center ln direction plane fr).1).segments.map
        (fun s => (s.move_type, s.feed_rate)) =
      g.segments.map (fun s => (s.move_type, s.feed_rate)) ++
        [(if direction.toUpper = "CW" then MoveType.ARC_CW else MoveType.ARC_CCW, fr)] := by
  unfold GeomState.add_arc_move GeomState.add_line_mapping
    GeometrySegment.calculate_length
  dsimp only
  split <;> simp

/-- The G1 error path for a non-positive F word. -/
theorem handle_g1_err_f (μ : MathOracle) (blk : Block) (ms : MachineState)
    (g : GeomState) (errs : List GCodeError) (fv : ℚ)
    (hf : blk.f = some fv) (hle : fv ≤ 0) :
    handle_g1 μ blk ms g errs =
      (false, ms.update_modal_group ModalKey.motion 1, g,
       add_error errs blk.line_number 0 0 "Feed rate must be positive for G1"
         ErrorType.SEMANTIC) := by
  unfold handle_g1
  rw [hf]
  dsimp only
  rw [if_pos hle]

/-- The G1 error path for an absent F word with a non-positive inherited
feed rate. -/
theorem handle_g1_err_none (μ : MathOracle) (blk : Block) (ms : MachineState)
    (g : GeomState) (errs : List GCodeError)
    (hf : blk.f = none) (hle : ms.feed_rate ≤ 0) :
    handle_g1 μ blk ms g errs =
      (false, ms.update_modal_group ModalKey.motion 1, g,
       add_error errs blk.line_number 0 0 "No feed rate specified for G1 move"
         ErrorType.SEMANTIC) := by
  unfold handle_g1
  rw [hf]
  dsimp only
  rw [if_pos
    (show (ms.update_modal_group ModalKey.motion 1).feed_rate ≤ 0 from hle)]

/-- The G1 success path for a positive F word: exactly one FEED segment
with the block's feed rate. -/
theorem handle_g1_ok_f (μ : MathOracle) (blk : Block) (ms : MachineState)
    (g : GeomState) (errs : List GCodeError) (fv : ℚ)
    (hf : blk.f = some fv) (hpos : 0 < fv) (hax : blk.has_axis_words = true) :
    (handle_g1 μ blk ms g errs).1 = true ∧
    (handle_g1 μ blk ms g errs).2.2.1.segments.map
        (fun s => (s.move_type, s.feed_rate)) =
      g.segments.map (fun s => (s.move_type, s.feed_rate)) ++
        [(MoveType.FEED, some fv)] := by
  unfold handle_g1
  rw [hf]
  dsimp only
  rw [if_neg (not_le.mpr hpos)]
  unfold handleG1Motion
  rw [hax]
  dsimp only
  exact ⟨rfl, add_linear_move_segments_map μ g _ _ _ _ _⟩

/-- The G1 success path with an inherited positive feed rate. -/
theorem handle_g1_ok_none (μ : MathOracle) (blk : Block) (ms : MachineState)
    (g : GeomState) (errs : List GCodeError)
    (hf : blk.f = none) (hpos : 0 < ms.feed_rate) (hax : blk.has_axis_words = true) :
    (handle_g1 μ blk ms g errs).1 = true ∧
    (handle_g1 μ blk ms g errs).2.2.1.segments.map
        (fun s => (s.move_type, s.feed_rate)) =
      g.segments.map (fun s => (s.move_type, s.feed_rate)) ++
        [(MoveType.FEED, some ms.feed_rate)] := by
  unfold handle_g1
  rw [hf]
  dsimp only
  rw [if_neg
    (show ¬ (ms.update_modal_group ModalKey.motion 1).feed_rate ≤ 0 from
      not_le.mpr hpos)]
  unfold handleG1Motion
  rw [hax]
  dsimp only
  exact ⟨rfl, add_linear_move_segments_map μ g _ _ _ _ _⟩

/-- The arc error path for a non-positive F word. -/
theorem handle_arc_err_f (μ : MathOracle) (blk : Block) (direction : String)
    (ms : MachineState) (g : GeomState) (errs : List GCodeError) (fv : ℚ)
    (hf : blk.f = some fv) (hle : fv ≤ 0) :
    handle_arc_motion μ blk direction ms g errs =
      (false,
       ms.update_modal_group ModalKey.motion (if direction = "CW" then 2 else 3), g,
       add_error errs blk.line_number 0 0 "Feed rate must be positive for G2/G3"
         ErrorType.SEMANTIC) := by
  unfold handle_arc_motion
  rw [hf]
  dsimp only
  rw [if_pos hle]

/-- The arc error path for an absent F word with a non-positive inherited
feed rate. -/
theorem handle_arc_err_none (μ : MathOracle) (blk : Block) (direction : String)
    (ms : MachineState) (g : GeomState) (errs : List GCodeError)
    (hf : blk.f = none) (hle : ms.feed_rate ≤ 0) :
    handle_arc_motion μ blk direction ms g errs =
      (false,
       ms.update_modal_group ModalKey.motion (if direction = "CW" then 2 else 3), g,
       add_error errs blk.line_number 0 0 "No feed rate specified for G2/G3 move"
         ErrorType.SEMANTIC) := by
  unfold handle_arc_motion
  rw [hf]
  dsimp only
  rw [if_pos
    (show (ms.update_modal_group ModalKey.motion
        (if direction = "CW" then 2 else 3)).feed_rate ≤ 0 from hle)]

/-- The arc success path for a positive F word. -/
theorem handle_arc_ok_f (μ : MathOracle) (blk : Block) (direction : String)
    (ms : MachineState) (g : GeomState) (errs : List GCodeError) (fv : ℚ)
    (hf : blk.f = some fv) (hpos : 0 < fv) (hax : blk.has_axis_words = true) :
    (handle_arc_motion μ blk direction ms g errs).1 = true ∧
    (handle_arc_motion μ blk direction ms g errs).2.2.1.segments.map
        (fun s => (s.move_type, s.feed_rate)) =
      g.segments.map (fun s => (s.move_type, s.feed_rate)) ++
        [(if direction.toUpper = "CW" then MoveType.ARC_CW else MoveType.ARC_CCW,
          some fv)] := by
  unfold handle_arc_motion
  rw [hf]
  dsimp only
  rw [if_neg (not_le.mpr hpos)]
  unfold handleArcMotionTail
  rw [hax]
  dsimp only
  exact ⟨rfl, add_arc_move_segments_map μ g _ _ _ _ _ _ _⟩

/-- The arc success path with an inherited positive feed rate. -/
theorem handle_arc_ok_none (μ : MathOracle) (blk : Block) (direction : String)
    (ms : MachineState) (g : GeomState) (errs : List GCodeError)
    (hf : blk.f = none) (hpos : 0 < ms.feed_rate) (hax : blk.has_axis_words = true) :
    (handle_arc_motion μ blk direction ms g errs).1 = true ∧
    (handle_arc_motion μ blk direction ms g errs).2.2.1.segments.map
        (fun s => (s.move_type, s.feed_rate)) =
      g.segments.map (fun s => (s.move_type, s.feed_rate)) ++
        [(if direction.toUpper = "CW" then MoveType.ARC_CW else MoveType.ARC_CCW,
          some ms.feed_rate)] := by
  unfold handle_arc_motion
  rw [hf]
  dsimp only
  rw [if_neg
    (show ¬ (ms.update_modal_group ModalKey.motion
        (if direction = "CW" then 2 else 3)).feed_rate ≤ 0 from not_le.mpr hpos)]
  unfold handleArcMotionTail
  rw [hax]
  dsimp only
  exact ⟨rfl, add_arc_move_segments_map μ g _ _ _ _ _ _ _⟩

/-- C7 (amended): for G1/G2/G3 with axis words, a PRESENT F word is
gated on its own sign — F ≤ 0 is a SEMANTIC error with no motion and an
unchanged position even when the inherited feed is positive — while an
absent F word is gated on the inherited modal feed; in the remaining
cases exactly one motion segment is emitted carrying the positive feed
rate (the block's F if present, else the inherited one). -/
theorem c7_feed_rate_gate (μ : MathOracle) (blk : Block) (ms : MachineState)
    (g : GeomState) (errs : List GCodeError) (direction : String)
    (hax : blk.has_axis_words = true)
    (hdir : direction = "CW" ∨ direction = "CCW") :
    (∀ fv, blk.f = some fv → fv ≤ 0 →
      (handle_g1 μ blk ms g errs).1 = false ∧
      (handle_g1 μ blk ms g errs).2.2.1 = g ∧
      (handle_g1 μ blk ms g errs).2.1.current_position = ms.current_position ∧
      (handle_g1 μ blk ms g errs).2.2.2 =
        errs ++ [⟨blk.line_number, 0, 0, "Feed rate must be positive for G1",
                  ErrorType.SEMANTIC, ErrorSeverity.ERROR⟩] ∧
      (handle_arc_motion μ blk direction ms g errs).1 = false ∧
      (handle_arc_motion μ blk direction ms g errs).2.2.1 = g ∧
      (handle_arc_motion μ blk direction ms g errs).2.1.current_position =
        ms.current_position ∧
      (handle_arc_motion μ blk direction ms g errs).2.2.2 =
        errs ++ [⟨blk.line_number, 0, 0, "Feed rate must be positive for G2/G3",
                  ErrorType.SEMANTIC, ErrorSeverity.ERROR⟩]) ∧
    (blk.f = none → ms.feed_rate ≤ 0 →
      (handle_g1 μ blk ms g errs).1 = false ∧
      (handle_g1 μ blk ms g errs).2.2.1 = g ∧
      (handle_g1 μ blk ms g errs).2.1.current_position = ms.current_position ∧
      (handle_arc_motion μ blk direction ms g errs).1 = false ∧
      (handle_arc_motion μ blk direction ms g errs).2.2.1 = g ∧
      (handle_arc_motion μ blk direction ms g errs).2.1.current_position =
        ms.current_position) ∧
    (∀ fv, blk.f = some fv → 0 < fv →
      (handle_g1 μ blk ms g errs).1 = true ∧
      (handle_g1 μ blk ms g errs).2.2.1.segments.map
          (fun s => (s.move_type, s.feed_rate)) =
        g.segments.map (fun s => (s.move_type, s.feed_rate)) ++
          [(MoveType.FEED, some fv)] ∧
      (handle_arc_motion μ blk direction ms g errs).1 = true ∧
      (handle_arc_motion μ blk direction ms g errs).2.2.1.segments.map
          (fun s => (s.move_type, s.feed_rate)) =
        g.segments.map (fun s => (s.move_type, s.feed_rate)) ++
          [(if direction = "CW" then MoveType.ARC_CW else MoveType.ARC_CCW,
            some fv)]) ∧
    (blk.f = none → 0 < ms.feed_rate →
      (handle_g1 μ blk ms g errs).1 = true ∧
      (handle_g1 μ blk ms g errs).2.2.1.segments.map
          (fun s => (s.move_type, s.feed_rate)) =
        g.segments.map (fun s => (s.move_type, s.feed_rate)) ++
          [(MoveType.FEED, some ms.feed_rate)] ∧
      (handle_arc_motion μ blk direction ms g errs).1 = true ∧
      (handle_arc_motion μ blk direction ms g errs).2.2.1.segments.map
          (fun s => (s.move_type, s.feed_rate)) =
        g.segments.map (fun s => (s.move_type, s.feed_rate)) ++
          [(if direction = "CW" then MoveType.ARC_CW else MoveType.ARC_CCW,
            some ms.feed_rate)]) := by
  have hupper : direction.toUpper = direction := by
    rcases hdir with h | h <;> rw [h] <;> with_unfolding_all rfl
  refine ⟨?_, ?_, ?_, ?_⟩
  · intro fv hf hle
    rw [handle_g1_err_f μ blk ms g errs fv hf hle,
        handle_arc_err_f μ blk direction ms g errs fv hf hle]
    exact ⟨rfl, rfl, rfl, rfl, rfl, rfl, rfl, rfl⟩
  · intro hf hle
    rw [handle_g1_err_none μ blk ms g errs hf hle,
        handle_arc_err_none μ blk direction ms g errs hf hle]
    exact ⟨rfl, rfl, rfl, rfl, rfl, rfl⟩
  · intro fv hf hpos
    have hg1 := handle_g1_ok_f μ blk ms g errs fv hf hpos hax
    have harc := handle_arc_ok_f μ blk direction ms g errs fv hf hpos hax
    rw [hupper] at harc
    exact ⟨hg1.1, hg1.2, harc.1, harc.2⟩
  · intro hf hpos
    have hg1 := handle_g1_ok_none μ blk ms g errs hf hpos hax
    have harc := handle_arc_ok_none μ blk direction ms g errs hf hpos hax
    rw [hupper] at harc
    exact ⟨hg1.1, hg1.2, harc.1, harc.2⟩

/-- C7 witness: a positive F word (F100) on a G1/G2 block with an axis
word emits exactly one segment with feed rate 100. -/
theorem c7_witness :
    (handle_g1 zeroOracle c7BlockOk {} {} []).1 = true ∧
    (handle_g1 zeroOracle c7BlockOk {} {} []).2.2.1.segments.map
        (fun s => (s.move_type, s.feed_rate)) = [(MoveType.FEED, some 100)] := by
  have H := (c7_feed_rate_gate zeroOracle c7BlockOk {} {} [] "CW"
    (by with_unfolding_all decide) (Or.inl rfl)).2.2.1 100
    (by with_unfolding_all decide) (by with_unfolding_all decide)
  exact ⟨H.1, by simpa using H.2.1⟩

/-- C7 counterexample: with F = −5 on the block and a positive inherited
feed rate of 100, the claim's "otherwise" case promises an emitted move;
the code instead emits a SEMANTIC diagnostic and produces no motion. -/
theorem c7_counterexample :
    (0 : ℚ) < c7MS.feed_rate ∧
    (handle_g1 zeroOracle c7Block c7MS {} []).1 = false ∧
    (handle_g1 zeroOracle c7Block c7MS {} []).2.2.1.segments = [] ∧
    ((handle_g1 zeroOracle c7Block c7MS {} []).2.2.2.map
        (fun e => e.error_type)) = [ErrorType.SEMANTIC] ∧
    (handle_g1 zeroOracle c7Block c7MS {} []).2.1.current_position =
      c7MS.current_position := by
  with_unfolding_all decide

end GCI
